import Mathlib

set_option maxRecDepth 100000

/-!
Verification of the PSScript AI-service core against its specification.

This file gives a shallow embedding, in Lean 4, of the pure parts of the
repository's Python sources:

* `src/ai/utils/script_sandbox.py`   (`ScriptSandbox.validate_script`, `execute`)
* `src/ai/utils/token_counter.py`    (`TokenCounter.calculate_cost`, `PRICING`)
* `src/ai/utils/model_router.py`     (`ModelRouter._assess_complexity`)
* `src/ai/guardrails/powershell_security.py` (`scan_powershell_code`,
  `validate_generated_output`)
* `src/ai/guardrails/topic_validator.py` (`validate_powershell_topic`)
* `src/ai/utils/pester_generator.py` (`parse_functions`, `generate_pester_tests`)
* `src/ai/utils/code_diff.py`        (`CodeDiffGenerator.generate_diff`), together
  with the parts of CPython's `difflib.SequenceMatcher` that it calls.

Python strings are modelled as Lean `String`s (scripts in this code base are
ASCII; `str.lower`/`str.upper` are modelled by the ASCII case maps), Python
ints as `Int`/`Nat`, Python floats as `ℚ` (every arithmetic appearing in the
verified claims is exact in binary floating point at the scales involved),
and `re` pattern matching by an executable backtracking matcher over a regex
AST transcribed pattern-by-pattern from the Python sources.  Effectful code
(the sandbox `execute`) is embedded as a pure function of an explicit
environment describing the outcome of each external interaction, and returns
the externally visible effects (spawn count, temp-directory lifecycle)
alongside the `ExecutionResult`.
-/

/-! ## Python string primitives

All string operations are implemented by structural recursion on the
character list of the string, so that every definition reduces inside the
kernel (`decide`/`rfl` work on concrete inputs). -/

/-- Python `str.lower()` (ASCII case map; all inputs considered are ASCII). -/
def pyLower (s : String) : String := String.mk (s.data.map Char.toLower)

/-- Python `str.upper()` (ASCII case map). -/
def pyUpper (s : String) : String := String.mk (s.data.map Char.toUpper)

/-- `needle.isPrefixOf hay` on characters. -/
def listIsPrefix : List Char → List Char → Bool
  | [], _ => true
  | _ :: _, [] => false
  | a :: as, b :: bs => a == b && listIsPrefix as bs

/-- Python `needle in hay` substring containment, on character lists. -/
def listContainsSub (hay needle : List Char) : Bool :=
  match hay with
  | [] => listIsPrefix needle []
  | _ :: t => listIsPrefix needle hay || listContainsSub t needle

/-- Python `needle in hay` substring containment, on strings. -/
def strContains (hay needle : String) : Bool :=
  listContainsSub hay.data needle.data

/-- Python `str.strip()` with no arguments: remove leading and trailing
whitespace. -/
def pyStrip (s : String) : String :=
  String.mk
    (((s.data.dropWhile Char.isWhitespace).reverse.dropWhile Char.isWhitespace).reverse)

/-- Split a character list at every character satisfying `p` (each separator
ends a field; fields may be empty, as in Python `str.split(sep)`). -/
def splitPred (p : Char → Bool) : List Char → List Char → List String
  | acc, [] => [String.mk acc.reverse]
  | acc, c :: t =>
    if p c then String.mk acc.reverse :: splitPred p [] t
    else splitPred p (c :: acc) t

/-- Python `s.split('\n')`. -/
def pySplitNl (s : String) : List String := splitPred (fun c => c == '\n') [] s.data

/-- Python `s.split()` (split on whitespace runs, dropping empty fields). -/
def pySplitWs (s : String) : List String :=
  (splitPred Char.isWhitespace [] s.data).filter (fun w => w ≠ "")

/-- `sep.join(l)`. -/
def pyJoin (sep : String) : List String → String
  | [] => ""
  | [x] => x
  | x :: y :: t => x ++ sep ++ pyJoin sep (y :: t)

/-- Python `'\n'.join`. -/
def pyJoinNl (l : List String) : String := pyJoin "\n" l

/-- Python code-point slicing `s[:n]`. -/
def pyTake (s : String) (n : ℕ) : String := String.mk (s.data.take n)

/-- Python `len(s)` (code points). -/
def pyLen (s : String) : ℕ := s.data.length

/-! ## Script sandbox (`src/ai/utils/script_sandbox.py`) -/

/-- `ExecutionStatus` enum. -/
inductive ExecutionStatus where
  | SUCCESS
  | ERROR
  | TIMEOUT
  | BLOCKED
  | PARTIAL
  deriving DecidableEq, Repr

/-- `ExecutionResult` dataclass (`execution_time` is a Python float, modelled
as `ℚ`). -/
structure ExecutionResult where
  status : ExecutionStatus
  stdout : String
  stderr : String
  exit_code : Int
  execution_time : ℚ
  warnings : List String
  blocked_commands : List String
  deriving DecidableEq, Repr

/-- `ScriptSandbox.BLOCKED_COMMANDS`. -/
def BLOCKED_COMMANDS : List String :=
  ["Invoke-Expression", "iex", "Invoke-Command", "icm", "Start-Process", "saps",
   "Invoke-WebRequest", "iwr", "Invoke-RestMethod", "irm", "wget", "curl",
   "Net.WebClient", "Start-BitsTransfer",
   "Set-ItemProperty", "Remove-ItemProperty", "New-ItemProperty",
   "Start-Service", "Stop-Service", "Set-Service", "Restart-Service",
   "Register-ScheduledTask", "Set-ScheduledTask",
   "New-LocalUser", "Add-LocalGroupMember", "Set-LocalUser",
   "Enter-PSSession", "New-PSSession", "Invoke-CimMethod",
   "Remove-Item", "ri", "del", "rmdir", "Clear-Content", "Set-Content",
   "Out-File", "Add-Content",
   "Set-Variable", "New-Variable", "[Environment]",
   "Set-ExecutionPolicy", "-ExecutionPolicy Bypass",
   "[System.Convert]::FromBase64String", "[Text.Encoding]",
   "Add-Type", "[Reflection.Assembly]", "Load(",
   "New-Object -ComObject"]

/-- The `suspicious_patterns` table inside `validate_script`. -/
def SUSPICIOUS_PATTERNS : List (String × String) :=
  [("-EncodedCommand", "Encoded commands are not allowed"),
   ("-enc ", "Encoded commands are not allowed"),
   ("DownloadString", "Remote code execution not allowed"),
   ("DownloadFile", "File downloads not allowed"),
   ("System.Net.", "Network classes not allowed"),
   ("System.IO.File", "Direct file access not allowed"),
   ("::WriteAllBytes", "Binary file writing not allowed"),
   ("$env:", "Environment variable access detected"),
   ("$profile", "Profile access not allowed")]

/-- Python `\w` on ASCII input: letters, digits and underscore. -/
def isWordChar (c : Char) : Bool := c.isAlphanum || c == '_'

/-- Case-insensitive character equality (ASCII). -/
def ciEq (a b : Char) : Bool := a.toLower == b.toLower

/-- Case-insensitive prefix test: does `hay` start with `needle`? -/
def ciIsPrefix : List Char → List Char → Bool
  | [], _ => true
  | _ :: _, [] => false
  | a :: as, b :: bs => ciEq a b && ciIsPrefix as bs

/-- One position of `re.search(rf'\b{cmd}\b', script, re.IGNORECASE)`:
`cmd` (made of word characters) matches at the head of `hay`, with a word
boundary against the preceding character `prev` and against the character
following the match. -/
def wbMatchAt (prev : Option Char) (hay : List Char) (w : List Char) : Bool :=
  (match prev with
   | none => true
   | some c => !isWordChar c) &&
  ciIsPrefix w hay &&
  (match hay.drop w.length with
   | [] => true
   | c :: _ => !isWordChar c)

/-- Search loop for `wbMatchAt` over all start positions. -/
def wbSearchAux (w : List Char) : Option Char → List Char → Bool
  | prev, hay =>
    wbMatchAt prev hay w ||
    match hay with
    | [] => false
    | c :: t => wbSearchAux w (some c) t

/-- `re.search(rf'\b{cmd}\b', script, re.IGNORECASE)` for the alias commands
`iex`/`icm`/`iwr`/`irm` (all made of word characters only). -/
def wbSearch (script : String) (cmd : String) : Bool :=
  wbSearchAux cmd.data none script.data

/-- `ScriptSandbox.validate_script`.  Returns
`(is_valid, warnings, blocked_commands)`. -/
def validate_script (allow_network : Bool) (script : String) :
    Bool × List String × List String :=
  let script_upper := pyUpper script
  let blocked := BLOCKED_COMMANDS.foldl
    (fun blocked cmd =>
      if strContains script_upper (pyUpper cmd) then
        if cmd ∈ ["iex", "icm", "iwr", "irm"] then
          if wbSearch script cmd then blocked ++ [cmd] else blocked
        else blocked ++ [cmd]
      else blocked) []
  let wb := SUSPICIOUS_PATTERNS.foldl
    (fun (wb : List String × List String) pw =>
      if strContains script_upper (pyUpper pw.1) then
        if !allow_network && strContains pw.1 "Net" then (wb.1, wb.2 ++ [pw.1])
        else (wb.1 ++ [pw.2], wb.2)
      else wb) ([], blocked)
  (wb.2.isEmpty, wb.1, wb.2)

/-- Sandbox configuration (the constructor arguments of `ScriptSandbox`
that the embedded code paths read). -/
structure Sandbox where
  timeout : ℕ := 30
  max_lines : ℕ := 1000
  max_chars : ℕ := 50000
  allow_network : Bool := false

/-- `ScriptSandbox._truncate_output`. -/
def truncate_output (sb : Sandbox) (output : String) : String :=
  if output = "" then ""
  else
    let lines := pySplitNl output
    let lines :=
      if lines.length > sb.max_lines then
        lines.take sb.max_lines ++
          ["\n... [Output truncated: " ++ toString sb.max_lines ++ " line limit]"]
      else lines
    let result := pyJoinNl lines
    if pyLen result > sb.max_chars then
      (pyTake result sb.max_chars) ++
        "\n... [Output truncated: " ++ toString sb.max_chars ++ " char limit]"
    else result

/-- Outcome of the `subprocess.run` call inside `execute`. -/
inductive RunOutcome where
  | completed (returncode : Int) (stdout stderr : String)
  | timedOut
  | raised (msg : String)
  deriving DecidableEq, Repr

/-- Environment for one `execute` call: the behaviour of every external
interaction the body can perform after validation.  `writeError = some e`
means creating/writing the temp script file raised exception `e` (caught by
the outer `except Exception` handler); otherwise `run` describes the
subprocess call.  `elapsed`/`elapsedAtError` are the wall-clock durations
`time.time() - start_time` observed at the respective return points.
`rmtreeRaises` is whether the `shutil.rmtree` call in the `finally` block
raises: its own `except Exception` handler only logs a warning, so the
temporary directory is left behind in that case. -/
structure ExecEnv where
  writeError : Option String
  run : RunOutcome
  elapsed : ℚ
  elapsedAtError : ℚ
  rmtreeRaises : Bool

/-- The externally visible effects of one `execute` call, alongside its
return value: how many subprocesses were spawned, and whether the temp
directory of this call was created and whether it still exists on return
(the `finally` block attempts to remove it whenever it was created, but a
failing `shutil.rmtree` is caught and only logged). -/
structure ExecEffects where
  result : ExecutionResult
  spawned : ℕ
  tempDirCreated : Bool
  tempDirExistsAfter : Bool
  deriving DecidableEq, Repr

/-- `ScriptSandbox.execute`.  Control flow transcribed from the source:
validate; if blocked return immediately (before `tempfile.mkdtemp`); else
create the temp dir, write the script (a write failure lands in the outer
`except Exception` handler), run the subprocess (completion, timeout, or an
exception from the spawn itself), and in all of those paths the `finally`
block attempts to remove the temp directory before returning; whether the
directory is actually gone depends on whether `shutil.rmtree` raises. -/
def execute (sb : Sandbox) (script : String) (env : ExecEnv) : ExecEffects :=
  let v := validate_script sb.allow_network script
  let warnings := v.2.1
  let blocked := v.2.2
  if !v.1 then
    { result :=
        { status := ExecutionStatus.BLOCKED
          stdout := ""
          stderr := "Script blocked: Contains forbidden commands: " ++
            pyJoin ", " blocked
          exit_code := -1
          execution_time := 0
          warnings := warnings
          blocked_commands := blocked }
      spawned := 0
      tempDirCreated := false
      tempDirExistsAfter := false }
  else
    match env.writeError with
    | some e =>
        { result :=
            { status := ExecutionStatus.ERROR
              stdout := ""
              stderr := e
              exit_code := -1
              execution_time := env.elapsedAtError
              warnings := warnings
              blocked_commands := [] }
          spawned := 0
          tempDirCreated := true
          tempDirExistsAfter := env.rmtreeRaises }
    | none =>
      match env.run with
      | RunOutcome.completed rc out err =>
          { result :=
              { status := if rc == 0 then ExecutionStatus.SUCCESS
                          else ExecutionStatus.ERROR
                stdout := truncate_output sb out
                stderr := truncate_output sb err
                exit_code := rc
                execution_time := env.elapsed
                warnings := warnings
                blocked_commands := [] }
            spawned := 1
            tempDirCreated := true
            tempDirExistsAfter := env.rmtreeRaises }
      | RunOutcome.timedOut =>
          { result :=
              { status := ExecutionStatus.TIMEOUT
                stdout := ""
                stderr := "Script execution timed out after " ++
                  toString sb.timeout ++ " seconds"
                exit_code := -1
                execution_time := (sb.timeout : ℚ)
                warnings := warnings
                blocked_commands := [] }
            spawned := 1
            tempDirCreated := true
            tempDirExistsAfter := env.rmtreeRaises }
      | RunOutcome.raised e =>
          { result :=
              { status := ExecutionStatus.ERROR
                stdout := ""
                stderr := e
                exit_code := -1
                execution_time := env.elapsedAtError
                warnings := warnings
                blocked_commands := [] }
            spawned := 0
            tempDirCreated := true
            tempDirExistsAfter := env.rmtreeRaises }

/-! ### Sandbox theorems (claims C2, C3, C9) -/

/-- **C2.** For every sandbox configuration, script, and environment: if
`validate_script` reports at least one blocked command, then `execute`
returns status `BLOCKED` with `execution_time = 0`, `exit_code = -1`, the
blocked commands listed in `blocked_commands`, and no subprocess is spawned
(and no temp directory is even created). -/
theorem execute_blocked_no_spawn (sb : Sandbox) (script : String) (env : ExecEnv)
    (h : (validate_script sb.allow_network script).2.2 ≠ []) :
    (execute sb script env).result.status = ExecutionStatus.BLOCKED ∧
    (execute sb script env).result.execution_time = 0 ∧
    (execute sb script env).result.exit_code = -1 ∧
    (execute sb script env).result.blocked_commands =
      (validate_script sb.allow_network script).2.2 ∧
    (execute sb script env).spawned = 0 := by
  have hv : (validate_script sb.allow_network script).1 = false := by
    have h2 : (validate_script sb.allow_network script).1 =
        (validate_script sb.allow_network script).2.2.isEmpty := rfl
    rw [h2]
    cases hbl : (validate_script sb.allow_network script).2.2 with
    | nil => exact absurd hbl h
    | cons a l => simp [List.isEmpty]
  simp only [execute, hv]
  simp

/-- Witness for C2 at the script `"Invoke-Expression 1"` (one blocked
command, `Invoke-Expression`) under the default sandbox configuration. -/
theorem execute_blocked_no_spawn_witness :
    (validate_script (Sandbox.mk 30 1000 50000 false).allow_network
       "Invoke-Expression 1").2.2 ≠ [] ∧
    (execute (Sandbox.mk 30 1000 50000 false) "Invoke-Expression 1"
       (ExecEnv.mk none (RunOutcome.completed 0 "" "") 0 0 false)).spawned = 0 :=
  ⟨by decide, (execute_blocked_no_spawn (Sandbox.mk 30 1000 50000 false)
      "Invoke-Expression 1"
      (ExecEnv.mk none (RunOutcome.completed 0 "" "") 0 0 false)
      (by decide)).2.2.2.2⟩

/-- **C3** (amended). For every call to `execute` that passes validation, a
temporary directory is created and the `finally` block attempts to remove it
in every outcome of the execution (success, error, timeout, or an internal
exception while preparing or running the subprocess); the directory no
longer exists when `execute` returns exactly when that `shutil.rmtree` call
does not itself raise.  When it does raise, its `except Exception` handler
only logs a warning and the directory remains on disk. -/
theorem execute_temp_dir_cleanup (sb : Sandbox) (script : String) (env : ExecEnv)
    (h : (validate_script sb.allow_network script).2.2 = []) :
    (execute sb script env).tempDirCreated = true ∧
    (execute sb script env).tempDirExistsAfter = env.rmtreeRaises := by
  have hv : (validate_script sb.allow_network script).1 = true := by
    have h2 : (validate_script sb.allow_network script).1 =
        (validate_script sb.allow_network script).2.2.isEmpty := rfl
    rw [h2, h]
    rfl
  simp only [execute, hv]
  cases hw : env.writeError with
  | some e => simp
  | none =>
    cases hr : env.run with
    | completed rc out err => simp
    | timedOut => simp
    | raised e => simp

/-- Witness for C3 at the script `"Get-Date"` (which passes validation) with
a successfully completed run and a successful `shutil.rmtree`. -/
theorem execute_temp_dir_cleanup_witness :
    (validate_script (Sandbox.mk 30 1000 50000 false).allow_network
       "Get-Date").2.2 = [] ∧
    (execute (Sandbox.mk 30 1000 50000 false) "Get-Date"
       (ExecEnv.mk none (RunOutcome.completed 0 "ok" "") 1 0
         false)).tempDirExistsAfter
      = false :=
  ⟨by decide, (execute_temp_dir_cleanup (Sandbox.mk 30 1000 50000 false)
      "Get-Date" (ExecEnv.mk none (RunOutcome.completed 0 "ok" "") 1 0 false)
      (by decide)).2⟩

/-- Counterexample to C3 as stated: when `shutil.rmtree` in the `finally`
block raises, the caught-and-logged exception leaves the temporary directory
in existence after `execute` returns, even for a successful run. -/
theorem execute_temp_dir_cleanup_counterexample :
    (execute (Sandbox.mk 30 1000 50000 false) "Get-Date"
       (ExecEnv.mk none (RunOutcome.completed 0 "ok" "") 1 0
         true)).tempDirCreated = true ∧
    (execute (Sandbox.mk 30 1000 50000 false) "Get-Date"
       (ExecEnv.mk none (RunOutcome.completed 0 "ok" "") 1 0
         true)).tempDirExistsAfter = true := by
  decide

/-- **C9.** There is a script containing only allow-listed read-only cmdlets —
`"Get-Printer"` — on which `validate_script` returns `is_valid = false` with a
non-empty `blocked_commands` list: the block-list entry `"ri"` matches by
case-insensitive substring inside the word `Printer`. -/
theorem validate_script_get_printer_blocked :
    validate_script false "Get-Printer" = (false, [], ["ri"]) := by decide

/-! ## Token counter (`src/ai/utils/token_counter.py`) -/

/-- The `PRICING` table, in its Python insertion order (USD per 1M tokens,
`(key, input price, output price)`). -/
def PRICING : List (String × ℚ × ℚ) :=
  [("gpt-4o", 2.50, 10.0),
   ("gpt-4o-mini", 0.15, 0.60),
   ("o3", 10.0, 40.0),
   ("gpt-4-turbo", 10.0, 30.0),
   ("gpt-4", 30.0, 60.0),
   ("gpt-3.5-turbo", 0.50, 1.50),
   ("text-embedding-3-large", 0.13, 0.0),
   ("text-embedding-3-small", 0.02, 0.0),
   ("text-embedding-ada-002", 0.10, 0.0)]

/-- The normalization loop in `TokenCounter.calculate_cost`: the first table
key that is a substring of the lowercased model name, else the lowercased
model name unchanged. -/
def priceLookupKey (model : String) : String :=
  let model_key := pyLower model
  match PRICING.find? (fun kv => strContains model_key kv.1) with
  | some kv => kv.1
  | none => model_key

/-- `TokenCounter.calculate_cost` (price arithmetic in `ℚ`; the Python float
arithmetic is exact for these decimal prices at these magnitudes up to
rounding that plays no role in the claim). The `none` branch is the
`model_key not in PRICING` fallback to the `"gpt-4o"` row. -/
def calculate_cost (model : String) (input_tokens output_tokens : ℕ) : ℚ :=
  let model_key := priceLookupKey model
  let row :=
    match PRICING.find? (fun kv => kv.1 == model_key) with
    | some kv => kv.2
    | none => (2.50, 10.0)
  (input_tokens : ℚ) / 1000000 * row.1 + (output_tokens : ℚ) / 1000000 * row.2

/-- **C10.** For every token count, `calculate_cost "gpt-4o-mini" …` resolves
the pricing lookup to the `"gpt-4o"` key (the first substring match in table
order) and therefore bills at 2.50/10.0 per 1M tokens — identical to
`calculate_cost "gpt-4o" …` — rather than at the `gpt-4o-mini` row. -/
theorem calculate_cost_mini_uses_gpt4o_row (input_tokens output_tokens : ℕ) :
    priceLookupKey "gpt-4o-mini" = "gpt-4o" ∧
    calculate_cost "gpt-4o-mini" input_tokens output_tokens =
      (input_tokens : ℚ) / 1000000 * 2.50 + (output_tokens : ℚ) / 1000000 * 10.0 ∧
    calculate_cost "gpt-4o-mini" input_tokens output_tokens =
      calculate_cost "gpt-4o" input_tokens output_tokens := by
  refine ⟨by decide, ?_, ?_⟩ <;> rfl

/-! ## Model router (`src/ai/utils/model_router.py`) -/

/-- `TaskComplexity` enum. -/
inductive TaskComplexity where
  | SIMPLE
  | MODERATE
  | COMPLEX
  | EXPERT
  deriving DecidableEq, Repr

/-- A conversation message (`{role, content}` dict); only its presence is
relevant to the router, its fields to the topic validator. -/
structure ChatMessage where
  role : String
  content : String
  deriving DecidableEq, Repr

/-- The `complex_keywords` list in `_assess_complexity`. -/
def complex_keywords : List String :=
  ["enterprise", "production", "scale", "distributed",
   "multi-tenant", "high-availability", "fault-tolerant",
   "microservices", "kubernetes", "azure devops", "ci/cd",
   "authentication", "authorization", "encryption",
   "performance", "optimization", "concurrent", "parallel"]

/-- The `expert_keywords` list in `_assess_complexity`. -/
def expert_keywords : List String :=
  ["architecture", "design pattern", "best practices",
   "security audit", "compliance", "hipaa", "gdpr",
   "disaster recovery", "business continuity",
   "zero trust", "penetration test"]

/-- `len(query.split())`. -/
def routerWordCount (query : String) : ℕ := (pySplitWs query).length

/-- Number of `complex_keywords` occurring as substrings of the lowercased
query. -/
def routerComplexCount (query : String) : ℕ :=
  (complex_keywords.filter (fun kw => strContains (pyLower query) kw)).length

/-- Number of `expert_keywords` occurring as substrings of the lowercased
query. -/
def routerExpertCount (query : String) : ℕ :=
  (expert_keywords.filter (fun kw => strContains (pyLower query) kw)).length

/-- `len(context) if context else 0`. -/
def routerContextLength : Option (List ChatMessage) → ℕ
  | none => 0
  | some l => l.length

/-- `ModelRouter._assess_complexity`. -/
def assess_complexity (query : String) (context : Option (List ChatMessage)) :
    TaskComplexity :=
  let word_count := routerWordCount query
  let complex_count := routerComplexCount query
  let expert_count := routerExpertCount query
  let context_length := routerContextLength context
  if expert_count ≥ 2 ∨ (complex_count ≥ 3 ∧ word_count > 50) then
    TaskComplexity.EXPERT
  else if complex_count ≥ 2 ∨ word_count > 100 ∨ context_length > 10 then
    TaskComplexity.COMPLEX
  else if word_count > 30 ∨ context_length > 5 then
    TaskComplexity.MODERATE
  else
    TaskComplexity.SIMPLE

/-- **C7.** For every query and optional context, the router's complexity
assessment returns `EXPERT` exactly when `expert_count ≥ 2` or
(`complex_count ≥ 3` and `word_count > 50`); otherwise `COMPLEX` exactly when
`complex_count ≥ 2` or `word_count > 100` or `context_length > 10`; otherwise
`MODERATE` exactly when `word_count > 30` or `context_length > 5`; otherwise
`SIMPLE` — with the counts as the numbers of complexity/expert indicator
keywords occurring as substrings of the lowercased query and
`context_length` the number of context messages (0 if absent). -/
theorem assess_complexity_thresholds (query : String)
    (context : Option (List ChatMessage)) :
    (assess_complexity query context = TaskComplexity.EXPERT ↔
      (routerExpertCount query ≥ 2 ∨
        (routerComplexCount query ≥ 3 ∧ routerWordCount query > 50))) ∧
    (assess_complexity query context = TaskComplexity.COMPLEX ↔
      (¬ (routerExpertCount query ≥ 2 ∨
            (routerComplexCount query ≥ 3 ∧ routerWordCount query > 50)) ∧
        (routerComplexCount query ≥ 2 ∨ routerWordCount query > 100 ∨
          routerContextLength context > 10))) ∧
    (assess_complexity query context = TaskComplexity.MODERATE ↔
      (¬ (routerExpertCount query ≥ 2 ∨
            (routerComplexCount query ≥ 3 ∧ routerWordCount query > 50)) ∧
        ¬ (routerComplexCount query ≥ 2 ∨ routerWordCount query > 100 ∨
            routerContextLength context > 10) ∧
        (routerWordCount query > 30 ∨ routerContextLength context > 5))) ∧
    (assess_complexity query context = TaskComplexity.SIMPLE ↔
      (¬ (routerExpertCount query ≥ 2 ∨
            (routerComplexCount query ≥ 3 ∧ routerWordCount query > 50)) ∧
        ¬ (routerComplexCount query ≥ 2 ∨ routerWordCount query > 100 ∨
            routerContextLength context > 10) ∧
        ¬ (routerWordCount query > 30 ∨ routerContextLength context > 5))) := by
  simp only [assess_complexity]
  split_ifs with h1 h2 h3 <;> simp_all

/-! ## An executable regex matcher

The guardrail modules test lines against Python `re` patterns.  We transcribe
each pattern into a small regex AST and decide matching with a fuelled
backtracking matcher (structural recursion on the fuel, so that concrete
matches reduce inside the kernel).  The fuel passed by the entry points below
is an over-approximation of the maximal backtracking depth, which is bounded
because every recursive call strictly decreases the pair
(remaining input length, size of the current sub-pattern). -/

/-- Regex AST: empty word, single-character class, concatenation,
alternation, Kleene star, and negative lookahead `(?!r)`. -/
inductive Regex where
  | eps
  | cls (p : Char → Bool)
  | cat (r1 r2 : Regex)
  | alt (r1 r2 : Regex)
  | star (r : Regex)
  | nla (r : Regex)

/-- Node count of a pattern (used only to size the fuel). -/
def rsize : Regex → ℕ
  | Regex.eps => 1
  | Regex.cls _ => 1
  | Regex.cat r1 r2 => rsize r1 + rsize r2 + 1
  | Regex.alt r1 r2 => rsize r1 + rsize r2 + 1
  | Regex.star r => rsize r + 1
  | Regex.nla r => rsize r + 1

/-- Backtracking matcher in continuation style: `matchO fuel r s k` matches a
prefix of `s` against `r` and passes the remainder to `k`, exploring
alternatives in Python's preference order (left alternative first, greedy
star).  Returns the first success. -/
def matchO : ℕ → Regex → List Char → (List Char → Option (List Char)) →
    Option (List Char)
  | 0, _, _, _ => none
  | f + 1, r, s, k =>
    match r with
    | Regex.eps => k s
    | Regex.cls p =>
      match s with
      | [] => none
      | c :: t => if p c then k t else none
    | Regex.cat r1 r2 => matchO f r1 s (fun s' => matchO f r2 s' k)
    | Regex.alt r1 r2 =>
      match matchO f r1 s k with
      | some t => some t
      | none => matchO f r2 s k
    | Regex.star r1 =>
      match matchO f r1 s
          (fun s' =>
            if s'.length < s.length then matchO f (Regex.star r1) s' k
            else none) with
      | some t => some t
      | none => k s
    | Regex.nla r1 =>
      match matchO f r1 s some with
      | some _ => none
      | none => k s

/-- Fuel sufficient for `matchO` on input `s` with pattern `r`. -/
def reFuel (r : Regex) (s : List Char) : ℕ := (s.length + 2) * (rsize r + 2)

/-- Does `r` match at the head of `s` (Python `re.match` without anchors)?
Returns the remainder after the preferred match. -/
def reMatchHere (r : Regex) (s : List Char) : Option (List Char) :=
  matchO (reFuel r s) r s some

/-- Search loop: try to match at each start position in turn. -/
def reSearchAux (r : Regex) : List Char → Bool
  | [] => (reMatchHere r []).isSome
  | c :: t => (reMatchHere r (c :: t)).isSome || reSearchAux r t

/-- `bool(re.search(r, s))`. -/
def reSearch (r : Regex) (s : String) : Bool := reSearchAux r s.data

/-- Characters written via code points to keep the source free of literal
brace/quote/backtick characters. -/
def lbraceChar : Char := Char.ofNat 123

def rbraceChar : Char := Char.ofNat 125

def aposChar : Char := Char.ofNat 39

def dquoteChar : Char := Char.ofNat 34

def backtickChar : Char := Char.ofNat 96

/-- Literal character (case-sensitive). -/
def rchr (c : Char) : Regex := Regex.cls (fun x => x == c)

/-- Literal character under `re.IGNORECASE` (ASCII case folding). -/
def rchrCI (c : Char) : Regex := Regex.cls (fun x => x.toLower == c.toLower)

/-- Concatenation of a list of patterns. -/
def rseq (l : List Regex) : Regex := l.foldr Regex.cat Regex.eps

/-- Literal string under `re.IGNORECASE`. -/
def rstrCI (s : String) : Regex := rseq (s.data.map rchrCI)

/-- Alternation of a non-empty list (first alternative preferred). -/
def ralts : List Regex → Regex
  | [] => Regex.nla Regex.eps
  | [r] => r
  | r :: r2 :: t => Regex.alt r (ralts (r2 :: t))

/-- `\s`. -/
def rws : Regex := Regex.cls Char.isWhitespace

/-- `\w` (ASCII). -/
def rwd : Regex := Regex.cls isWordChar

/-- `\d`. -/
def rdig : Regex := Regex.cls Char.isDigit

/-- `.` (no `DOTALL`: anything but a newline). -/
def rdot : Regex := Regex.cls (fun c => c != '\n')

/-- `r?`. -/
def ropt (r : Regex) : Regex := Regex.alt r Regex.eps

/-- `r+`. -/
def rplus (r : Regex) : Regex := Regex.cat r (Regex.star r)

/-- `\s*`. -/
def rwss : Regex := Regex.star rws

/-- `\s+`. -/
def rwsp : Regex := rplus rws

/-- `.*`. -/
def rdots : Regex := Regex.star rdot

/-! ## Security guard (`src/ai/guardrails/powershell_security.py`) -/

/-- `SecurityLevel` enum. -/
inductive SecurityLevel where
  | CRITICAL
  | HIGH
  | MEDIUM
  | LOW
  | SAFE
  deriving DecidableEq, Repr

/-- `SecurityCategory` enum. -/
inductive SecurityCategory where
  | DESTRUCTIVE_OPERATION
  | CREDENTIAL_EXPOSURE
  | SYSTEM_MODIFICATION
  | NETWORK_OPERATION
  | EXECUTION_RISK
  | PRIVILEGE_ESCALATION
  | DATA_EXFILTRATION
  | OBFUSCATION
  | PERSISTENCE
  | SAFE
  deriving DecidableEq, Repr

/-- `SecurityFinding` dataclass. -/
structure SecurityFinding where
  level : SecurityLevel
  category : SecurityCategory
  message : String
  line_number : Option ℕ := none
  code_snippet : Option String := none
  recommendation : Option String := none
  deriving DecidableEq, Repr

/-- `SecurityScanResult` dataclass. -/
structure SecurityScanResult where
  is_safe : Bool
  overall_level : SecurityLevel
  findings : List SecurityFinding
  blocked_operations : List String
  warnings : List String
  recommendations : List String
  deriving DecidableEq, Repr

/-- An apostrophe, as a string. -/
def aposS : String := String.mk [aposChar]

/-- Wrap in single quotes (for messages that quote a token). -/
def sqS (s : String) : String := aposS ++ s ++ aposS

/-- `["\']` character class. -/
def rQuote : Regex := Regex.cls (fun c => c == dquoteChar || c == aposChar)

/-- `[^"\']` character class. -/
def rNotQuote : Regex := Regex.cls (fun c => !(c == dquoteChar || c == aposChar))

/-- `DANGEROUS_COMMANDS`: `(pattern, severity, message)` in source order. -/
def DANGEROUS_COMMANDS : List (Regex × SecurityLevel × String) :=
  [(rstrCI "Format-Volume", SecurityLevel.CRITICAL,
      "Formats entire disk volumes - data loss"),
   (rstrCI "Clear-Disk", SecurityLevel.CRITICAL,
      "Clears entire disk - data loss"),
   (rseq [rstrCI "Remove-Item", rwsp, rdots, rstrCI "-Recurse", rdots,
        Regex.cls (fun c => c == '/' || c == '\\'),
        ralts [rstrCI "Windows", rstrCI "System32", rstrCI "Program Files"]],
      SecurityLevel.CRITICAL, "Recursive deletion of system folders"),
   (rseq [rstrCI "Remove-Item", rwsp, rdots, rchr '$', rstrCI "env:",
        ralts [rstrCI "SystemRoot", rstrCI "windir"]],
      SecurityLevel.CRITICAL, "Deletion of Windows system directory"),
   (rseq [rstrCI "Stop-Computer", rwss, rstrCI "-Force"],
      SecurityLevel.HIGH, "Forces immediate shutdown"),
   (rseq [rstrCI "Restart-Computer", rwss, rstrCI "-Force"],
      SecurityLevel.HIGH, "Forces immediate restart"),
   (rseq [rstrCI "Remove-Item", rwsp, rdots, rstrCI "HKLM:\\"],
      SecurityLevel.CRITICAL, "Deleting system registry keys"),
   (rseq [rstrCI "Remove-ItemProperty", rwsp, rdots, rstrCI "HKLM:\\"],
      SecurityLevel.HIGH, "Removing system registry values"),
   (rseq [rstrCI "Set-ItemProperty", rwsp, rdots, rstrCI "HKLM:\\", rdots,
        rstrCI "\\Run"],
      SecurityLevel.HIGH, "Modifying startup registry"),
   (rseq [rstrCI "Stop-Service", rwsp, rdots, rstrCI "wuauserv"],
      SecurityLevel.MEDIUM, "Stopping Windows Update service"),
   (rseq [rstrCI "Stop-Service", rwsp, rdots, rstrCI "WinDefend"],
      SecurityLevel.HIGH, "Stopping Windows Defender"),
   (rseq [rstrCI "Set-Service", rwsp, rdots, rstrCI "-StartupType", rwsp,
        rstrCI "Disabled"],
      SecurityLevel.MEDIUM, "Disabling services"),
   (rseq [rstrCI "Set-NetFirewallProfile", rwsp, rdots, rstrCI "-Enabled",
        rwsp, rstrCI "False"],
      SecurityLevel.HIGH, "Disabling firewall"),
   (rstrCI "Disable-WindowsOptionalFeature", SecurityLevel.MEDIUM,
      "Disabling Windows features"),
   (rseq [rstrCI "-ExecutionPolicy", rwsp, rstrCI "Bypass"],
      SecurityLevel.MEDIUM, "Bypassing execution policy"),
   (rseq [rstrCI "Set-ExecutionPolicy", rwsp, rstrCI "Unrestricted"],
      SecurityLevel.MEDIUM, "Setting unrestricted execution")]

/-- `CREDENTIAL_PATTERNS`: `(pattern, message)` in source order. -/
def CREDENTIAL_PATTERNS : List (Regex × String) :=
  [(rseq [rstrCI "password", rwss, rchr '=', rwss, rQuote, rplus rNotQuote,
        rQuote], "Hardcoded password detected"),
   (rseq [rstrCI "ConvertTo-SecureString", rwsp, rdots, rstrCI "-AsPlainText"],
      "Plain text password conversion"),
   (rseq [rstrCI "api", ropt (Regex.cls (fun c => c == '_' || c == '-')),
        rstrCI "key", rwss, rchr '=', rwss, rQuote, rplus rNotQuote, rQuote],
      "Hardcoded API key detected"),
   (rseq [rstrCI "secret", rwss, rchr '=', rwss, rQuote, rplus rNotQuote,
        rQuote], "Hardcoded secret detected"),
   (rseq [rstrCI "token", rwss, rchr '=', rwss, rQuote, rplus rNotQuote,
        rQuote], "Hardcoded token detected"),
   (rseq [rchr '$', rstrCI "cred", rwss, rchr '=', rwss, rdots,
        rstrCI "password"], "Credential with embedded password"),
   (rseq [rstrCI "Authorization", rdots, rstrCI "Bearer", rwsp,
        rplus (Regex.cls (fun c => c.isAlphanum || c == '-' || c == '_'))],
      "Hardcoded bearer token")]

/-- `OBFUSCATION_PATTERNS`: `(pattern, message)` in source order. -/
def OBFUSCATION_PATTERNS : List (Regex × String) :=
  [(rseq [rchr '-', Regex.cls (fun c => c == 'E' || c == 'e'), rstrCI "ncoded",
        Regex.cls (fun c => c == 'C' || c == 'c'), rstrCI "ommand"],
      "Base64 encoded command execution"),
   (rstrCI "[System.Convert]::FromBase64String",
      "Base64 decoding (review content)"),
   (rseq [rstrCI "-join", rwss, rchr '(', rwss, rstrCI "[char[]]"],
      "Character array joining (obfuscation)"),
   (rseq [rchr '$', rchr lbraceChar,
        rplus (Regex.cls (fun c => c != rbraceChar)), rchr rbraceChar],
      "Variable obfuscation with braces"),
   (rseq [rchr backtickChar, rwd],
      "Backtick character escaping (potential obfuscation)"),
   (rseq [rstrCI "IEX", rwss, rchr '('],
      "Invoke-Expression (dynamic code execution)"),
   (rstrCI "Invoke-Expression", "Dynamic code execution"),
   (rseq [rchr '(', rwss, rstrCI "[char]", rwss, rplus rdig],
      "ASCII character code usage")]

/-- `NETWORK_PATTERNS`: `(pattern, severity, message)` in source order. -/
def NETWORK_PATTERNS : List (Regex × SecurityLevel × String) :=
  [(rseq [rstrCI "Invoke-WebRequest", rdots, rstrCI "-OutFile"],
      SecurityLevel.MEDIUM, "Downloading file from web"),
   (rstrCI "Invoke-RestMethod", SecurityLevel.LOW,
      "REST API call - verify endpoint"),
   (rstrCI "Start-BitsTransfer", SecurityLevel.MEDIUM, "BITS file transfer"),
   (rseq [rstrCI "Net.WebClient", rdots, rstrCI "DownloadFile"],
      SecurityLevel.MEDIUM, "WebClient file download"),
   (rseq [rstrCI "Net.WebClient", rdots, rstrCI "DownloadString"],
      SecurityLevel.MEDIUM, "WebClient string download"),
   (rstrCI "Send-MailMessage", SecurityLevel.MEDIUM,
      "Sending email - verify recipient"),
   (rstrCI "[System.Net.Sockets", SecurityLevel.HIGH,
      "Raw socket operations")]

/-- `PERSISTENCE_PATTERNS`: `(pattern, message)` in source order. -/
def PERSISTENCE_PATTERNS : List (Regex × String) :=
  [(rstrCI "New-ScheduledTask", "Creating scheduled task"),
   (rstrCI "Register-ScheduledTask", "Registering scheduled task"),
   (rseq [rstrCI "HKCU:\\", rdots, rstrCI "\\Run"],
      "Modifying user startup registry"),
   (rseq [rstrCI "HKLM:\\", rdots, rstrCI "\\Run"],
      "Modifying system startup registry"),
   (rseq [rstrCI "Startup\\", rdots, rstrCI ".lnk"],
      "Creating startup shortcut"),
   (rstrCI "New-Service", "Creating new Windows service")]

/-- `BEST_PRACTICES`: `(pattern, recommendation)` in source order. -/
def BEST_PRACTICES : List (Regex × String) :=
  [(rstrCI "Write-Host",
      "Use Write-Output for pipeline data, Write-Verbose for debug info, or $PSStyle for colors (PS7+)"),
   (rseq [rchr '$', rstrCI "error[0]"],
      "Use try/catch/finally blocks for structured error handling"),
   (rstrCI "Out-Null",
      "Use [void] cast or $null = for better performance: [void]$result or $null = $command"),
   (rstrCI "Get-WmiObject",
      "DEPRECATED: Use Get-CimInstance for better performance and cross-platform support"),
   (rseq [rchr '|', rchr ' ', rstrCI "ForEach-Object", rchr ' ',
        rchr lbraceChar],
      "For large collections, consider foreach() statement or ForEach-Object -Parallel (PS7+)"),
   (rseq [rstrCI "if", rwss, rchr '(', rwss, rchr '$', rstrCI "null", rwss,
        rstrCI "-eq"],
      "Consider null-coalescing operator (PS7+): $value ?? " ++ sqS "default"),
   (rseq [rstrCI "if", rwss, rchr '(', rplus rdot, rchr ')', rwss,
        rchr lbraceChar, rwss, rchr '$', rplus rdot, rwss, rchr rbraceChar,
        rwss, rstrCI "else", rwss, rchr lbraceChar, rwss, rchr '$',
        rplus rdot, rwss, rchr rbraceChar],
      "Consider ternary operator (PS7+): $result = $condition ? $trueVal : $falseVal"),
   (rstrCI "ConvertFrom-SecureString",
      "Consider SecretManagement module for secure credential storage"),
   (rstrCI "Invoke-Expression",
      "Avoid Invoke-Expression when possible - use direct cmdlet calls or splatting"),
   (rseq [rstrCI "+=", rwss, rstrCI "[array]"],
      "Avoid array concatenation in loops - use ArrayList or generic List<T>"),
   (rseq [rstrCI "Select-Object", rwsp, rstrCI "-First", rwsp, rchr '1'],
      "Use array indexing [0] for single items - faster than Select-Object"),
   (rseq [rstrCI "function", rwsp, rplus rwd, rchr '-', rplus rwd, rwss,
        rchr lbraceChar, Regex.star (Regex.cls (fun c => c != rbraceChar)),
        rchr rbraceChar,
        Regex.nla (rseq [Regex.star (Regex.cls (fun c => c != lbraceChar)),
          rstrCI "[CmdletBinding"])],
      "Add [CmdletBinding()] to enable common parameters like -Verbose, -Debug"),
   (rstrCI "-UseDefaultCredentials",
      "CAUTION: -UseDefaultCredentials fails on remote computers (double-hop). Use explicit -Credential parameter with Get-Credential"),
   (rseq [rstrCI "Invoke-Command", rwsp, rstrCI "-ComputerName",
        Regex.nla (rseq [rdots, rstrCI "-Credential"])],
      "Remote command without -Credential may fail accessing network resources. Add -Credential $cred parameter"),
   (rseq [rstrCI "Enter-PSSession", rwsp, rstrCI "-ComputerName",
        Regex.nla (rseq [rdots, rstrCI "-Credential"])],
      "Remote session without credentials - may fail for nested resource access. Use -Credential parameter"),
   (rseq [rstrCI "New-PSSession",
        Regex.nla (rseq [rdots, rstrCI "-Credential"])],
      "Consider adding -Credential parameter for consistent authentication in remote sessions"),
   (rseq [rstrCI "Invoke-WebRequest", rdots, rstrCI "-UseDefaultCredentials",
        rdots, rstrCI "Invoke-Command"],
      "UseDefaultCredentials inside remote session will fail. Pass credentials explicitly via -ArgumentList")]

/-- Numeric rank of a severity level under the ordering
SAFE < LOW < MEDIUM < HIGH < CRITICAL. -/
def levelRank : SecurityLevel → ℕ
  | SecurityLevel.SAFE => 0
  | SecurityLevel.LOW => 1
  | SecurityLevel.MEDIUM => 2
  | SecurityLevel.HIGH => 3
  | SecurityLevel.CRITICAL => 4

/-- Maximum of two severity levels under that ordering. -/
def levelMax (a b : SecurityLevel) : SecurityLevel :=
  if levelRank a ≥ levelRank b then a else b

/-- Maximum severity over a list of findings (`SAFE` for no findings). -/
def findingsMax (fs : List SecurityFinding) : SecurityLevel :=
  fs.foldl (fun acc f => levelMax acc f.level) SecurityLevel.SAFE

/-- Python `s.startswith(p)`. -/
def pyStartsWith (s p : String) : Bool := listIsPrefix p.data s.data

/-- Accumulator of `scan_powershell_code`'s loop (its five mutable lists and
`overall_level`). -/
structure ScanState where
  findings : List SecurityFinding
  blocked : List String
  warnings : List String
  recommendations : List String
  overall : SecurityLevel
  deriving Repr

/-- Initial scan state. -/
def scanInit : ScanState :=
  ScanState.mk [] [] [] [] SecurityLevel.SAFE

/-- One `DANGEROUS_COMMANDS` entry applied to one line. -/
def dangerousStep (line_num : ℕ) (line line_stripped : String) (st : ScanState)
    (e : Regex × SecurityLevel × String) : ScanState :=
  if reSearch e.1 line then
    let finding : SecurityFinding :=
      { level := e.2.1
        category := SecurityCategory.DESTRUCTIVE_OPERATION
        message := e.2.2
        line_number := some line_num
        code_snippet := some (pyTake line_stripped 100)
        recommendation :=
          some "Review necessity of this operation. Consider adding -WhatIf for testing." }
    let st := { st with findings := st.findings ++ [finding] }
    if e.2.1 = SecurityLevel.CRITICAL then
      { st with
        blocked := st.blocked ++ ["Line " ++ toString line_num ++ ": " ++ e.2.2]
        overall := SecurityLevel.CRITICAL }
    else if e.2.1 = SecurityLevel.HIGH ∧ st.overall ≠ SecurityLevel.CRITICAL then
      { st with
        overall := SecurityLevel.HIGH
        warnings := st.warnings ++ ["Line " ++ toString line_num ++ ": " ++ e.2.2] }
    else st
  else st

/-- One `CREDENTIAL_PATTERNS` entry applied to one line. -/
def credentialStep (line_num : ℕ) (line line_stripped : String) (st : ScanState)
    (e : Regex × String) : ScanState :=
  if reSearch e.1 line then
    let finding : SecurityFinding :=
      { level := SecurityLevel.HIGH
        category := SecurityCategory.CREDENTIAL_EXPOSURE
        message := e.2
        line_number := some line_num
        code_snippet := some (pyTake line_stripped 50 ++ "...")
        recommendation :=
          some "Use Get-Credential, environment variables, or Azure Key Vault instead" }
    let st :=
      { st with
        findings := st.findings ++ [finding]
        warnings := st.warnings ++ ["Line " ++ toString line_num ++ ": " ++ e.2] }
    if st.overall = SecurityLevel.SAFE then
      { st with overall := SecurityLevel.HIGH }
    else st
  else st

/-- One `OBFUSCATION_PATTERNS` entry applied to one line. -/
def obfuscationStep (line_num : ℕ) (line line_stripped : String) (st : ScanState)
    (e : Regex × String) : ScanState :=
  if reSearch e.1 line then
    let finding : SecurityFinding :=
      { level := SecurityLevel.MEDIUM
        category := SecurityCategory.OBFUSCATION
        message := e.2
        line_number := some line_num
        code_snippet := some (pyTake line_stripped 80)
        recommendation :=
          some ("Review obfuscated content. Ensure it" ++ aposS ++
            "s not hiding malicious code.") }
    let st := { st with findings := st.findings ++ [finding] }
    if st.overall = SecurityLevel.SAFE ∨ st.overall = SecurityLevel.LOW then
      { st with overall := SecurityLevel.MEDIUM }
    else st
  else st

/-- One `NETWORK_PATTERNS` entry applied to one line. -/
def networkStep (line_num : ℕ) (line line_stripped : String) (st : ScanState)
    (e : Regex × SecurityLevel × String) : ScanState :=
  if reSearch e.1 line then
    let finding : SecurityFinding :=
      { level := e.2.1
        category := SecurityCategory.NETWORK_OPERATION
        message := e.2.2
        line_number := some line_num
        code_snippet := some (pyTake line_stripped 80) }
    { st with findings := st.findings ++ [finding] }
  else st

/-- One `PERSISTENCE_PATTERNS` entry applied to one line. -/
def persistenceStep (line_num : ℕ) (line line_stripped : String) (st : ScanState)
    (e : Regex × String) : ScanState :=
  if reSearch e.1 line then
    let finding : SecurityFinding :=
      { level := SecurityLevel.MEDIUM
        category := SecurityCategory.PERSISTENCE
        message := e.2
        line_number := some line_num
        code_snippet := some (pyTake line_stripped 80)
        recommendation :=
          some "Ensure persistence mechanism is intentional and documented" }
    { st with findings := st.findings ++ [finding] }
  else st

/-- One `BEST_PRACTICES` entry applied to one line. -/
def bestPracticeStep (line_num : ℕ) (line : String) (st : ScanState)
    (e : Regex × String) : ScanState :=
  if reSearch e.1 line then
    { st with
      recommendations :=
        st.recommendations ++ ["Line " ++ toString line_num ++ ": " ++ e.2] }
  else st

/-- The body of the `for line_num, line in enumerate(lines, 1)` loop:
skip comment lines, then run the six pattern tables in source order. -/
def scanLine (st : ScanState) (numbered : ℕ × String) : ScanState :=
  let line_num := numbered.1
  let line := numbered.2
  let line_stripped := pyStrip line
  if pyStartsWith line_stripped "#" then st
  else
    let st := DANGEROUS_COMMANDS.foldl (dangerousStep line_num line line_stripped) st
    let st := CREDENTIAL_PATTERNS.foldl (credentialStep line_num line line_stripped) st
    let st := OBFUSCATION_PATTERNS.foldl (obfuscationStep line_num line line_stripped) st
    let st := NETWORK_PATTERNS.foldl (networkStep line_num line line_stripped) st
    let st := PERSISTENCE_PATTERNS.foldl (persistenceStep line_num line line_stripped) st
    BEST_PRACTICES.foldl (bestPracticeStep line_num line) st

/-- The `is_safe` computation at the end of `scan_powershell_code`:
`is_safe = overall_level not in [CRITICAL]`, then demoted to `False` in
strict mode when `overall_level in [HIGH, CRITICAL]`. -/
def scanIsSafe (overall_level : SecurityLevel) (strict_mode : Bool) : Bool :=
  let is_safe := decide (overall_level ∉ [SecurityLevel.CRITICAL])
  if strict_mode ∧
      overall_level ∈ [SecurityLevel.HIGH, SecurityLevel.CRITICAL] then
    false
  else is_safe

/-- `scan_powershell_code` (the optional `context` argument is unused by the
source). -/
def scan_powershell_code (code : String) (strict_mode : Bool) :
    SecurityScanResult :=
  let lines := pySplitNl code
  let st := (lines.enum.map (fun p => (p.1 + 1, p.2))).foldl scanLine scanInit
  { is_safe := scanIsSafe st.overall strict_mode
    overall_level := st.overall
    findings := st.findings
    blocked_operations := st.blocked
    warnings := st.warnings
    recommendations := st.recommendations.take 10 }

/-! ### C1: `overall_level` versus the maximum finding severity -/

/-- A fold preserves any invariant its step preserves. -/
theorem foldl_preserve {α β : Type} (step : β → α → β) (P : β → Prop)
    (h : ∀ b a, P b → P (step b a)) :
    ∀ (l : List α) (b : β), P b → P (l.foldl step b) := by
  intro l
  induction l with
  | nil => intro b hb; exact hb
  | cons a t ih => intro b hb; exact ih _ (h b a hb)

theorem levelRank_levelMax (a b : SecurityLevel) :
    levelRank (levelMax a b) = max (levelRank a) (levelRank b) := by
  unfold levelMax
  split_ifs with h <;> omega

theorem findingsMax_append (fs : List SecurityFinding) (f : SecurityFinding) :
    findingsMax (fs ++ [f]) = levelMax (findingsMax fs) f.level := by
  unfold findingsMax
  rw [List.foldl_append]
  rfl

/-- The scan-state invariant: `overall` never exceeds the maximum severity
over the findings collected so far. -/
def ScanInv (st : ScanState) : Prop :=
  levelRank st.overall ≤ levelRank (findingsMax st.findings)

theorem scanInv_append (fs : List SecurityFinding) (f : SecurityFinding)
    (o : SecurityLevel)
    (h : levelRank o ≤ max (levelRank (findingsMax fs)) (levelRank f.level)) :
    levelRank o ≤ levelRank (findingsMax (fs ++ [f])) := by
  rw [findingsMax_append, levelRank_levelMax]
  exact h

theorem dangerousStep_inv (ln : ℕ) (line str : String) (st : ScanState)
    (e : Regex × SecurityLevel × String) (h : ScanInv st) :
    ScanInv (dangerousStep ln line str st e) := by
  simp only [dangerousStep]
  split_ifs with h1 h2 h3
  · exact scanInv_append _ _ _ (by rw [h2]; simp [levelRank])
  · refine scanInv_append _ _ _ ?_
    rw [h3.1]
    simp [levelRank]
  · exact scanInv_append _ _ _ (le_trans h (le_max_left _ _))
  · exact h

theorem credentialStep_inv (ln : ℕ) (line str : String) (st : ScanState)
    (e : Regex × String) (h : ScanInv st) :
    ScanInv (credentialStep ln line str st e) := by
  simp only [credentialStep]
  split_ifs with h1 h2
  · exact scanInv_append _ _ _ (by simp [levelRank])
  · exact scanInv_append _ _ _ (le_trans h (le_max_left _ _))
  · exact h

theorem obfuscationStep_inv (ln : ℕ) (line str : String) (st : ScanState)
    (e : Regex × String) (h : ScanInv st) :
    ScanInv (obfuscationStep ln line str st e) := by
  simp only [obfuscationStep]
  split_ifs with h1 h2
  · exact scanInv_append _ _ _ (by simp [levelRank])
  · exact scanInv_append _ _ _ (le_trans h (le_max_left _ _))
  · exact h

theorem networkStep_inv (ln : ℕ) (line str : String) (st : ScanState)
    (e : Regex × SecurityLevel × String) (h : ScanInv st) :
    ScanInv (networkStep ln line str st e) := by
  simp only [networkStep]
  split_ifs with h1
  · exact scanInv_append _ _ _ (le_trans h (le_max_left _ _))
  · exact h

theorem persistenceStep_inv (ln : ℕ) (line str : String) (st : ScanState)
    (e : Regex × String) (h : ScanInv st) :
    ScanInv (persistenceStep ln line str st e) := by
  simp only [persistenceStep]
  split_ifs with h1
  · exact scanInv_append _ _ _ (le_trans h (le_max_left _ _))
  · exact h

theorem bestPracticeStep_inv (ln : ℕ) (line : String) (st : ScanState)
    (e : Regex × String) (h : ScanInv st) :
    ScanInv (bestPracticeStep ln line st e) := by
  simp only [bestPracticeStep]
  split_ifs with h1
  · exact h
  · exact h

theorem scanLine_inv (st : ScanState) (p : ℕ × String) (h : ScanInv st) :
    ScanInv (scanLine st p) := by
  simp only [scanLine]
  split_ifs with h1
  · exact h
  · refine foldl_preserve _ _ (fun b a hb => bestPracticeStep_inv _ _ b a hb) _ _ ?_
    refine foldl_preserve _ _ (fun b a hb => persistenceStep_inv _ _ _ b a hb) _ _ ?_
    refine foldl_preserve _ _ (fun b a hb => networkStep_inv _ _ _ b a hb) _ _ ?_
    refine foldl_preserve _ _ (fun b a hb => obfuscationStep_inv _ _ _ b a hb) _ _ ?_
    refine foldl_preserve _ _ (fun b a hb => credentialStep_inv _ _ _ b a hb) _ _ ?_
    exact foldl_preserve _ _ (fun b a hb => dangerousStep_inv _ _ _ b a hb) _ _ h

theorem scanIsSafe_iff (o : SecurityLevel) (strict : Bool) :
    (scanIsSafe o strict = true ↔
      (if strict = true then
        o ≠ SecurityLevel.HIGH ∧ o ≠ SecurityLevel.CRITICAL
      else o ≠ SecurityLevel.CRITICAL)) := by
  cases o <;> cases strict <;> simp [scanIsSafe]

/-- **C1 (amended).** For every script and strict-mode flag,
`scan_powershell_code` returns a result whose `overall_level` is *at most*
(not in general equal to) the maximum severity over the levels of its
findings under the ordering SAFE<LOW<MEDIUM<HIGH<CRITICAL, and whose
`is_safe` equals `overall_level ≠ CRITICAL` when `strict_mode` is false and
`overall_level ∉ {HIGH, CRITICAL}` when `strict_mode` is true. -/
theorem scan_overall_le_max_and_is_safe (code : String) (strict_mode : Bool) :
    levelRank (scan_powershell_code code strict_mode).overall_level ≤
      levelRank (findingsMax (scan_powershell_code code strict_mode).findings) ∧
    ((scan_powershell_code code strict_mode).is_safe = true ↔
      (if strict_mode = true then
        (scan_powershell_code code strict_mode).overall_level ≠
            SecurityLevel.HIGH ∧
          (scan_powershell_code code strict_mode).overall_level ≠
            SecurityLevel.CRITICAL
      else
        (scan_powershell_code code strict_mode).overall_level ≠
          SecurityLevel.CRITICAL)) := by
  constructor
  · have h : ScanInv (((pySplitNl code).enum.map
        (fun p => (p.1 + 1, p.2))).foldl scanLine scanInit) := by
      refine foldl_preserve _ _ (fun b a hb => scanLine_inv b a hb) _ _ ?_
      simp [ScanInv, scanInit, findingsMax, levelRank]
    exact h
  · exact scanIsSafe_iff _ _

/-- **C1 counterexample.** On the script `"[System.Net.Sockets"` the scan
produces one finding of level HIGH (raw socket operations, a network-pattern
finding, which never raises `overall_level`), yet `overall_level` stays
`SAFE`: it is *not* the maximum severity over the findings. -/
theorem scan_overall_not_max_counterexample :
    (scan_powershell_code "[System.Net.Sockets" false).overall_level =
      SecurityLevel.SAFE ∧
    findingsMax (scan_powershell_code "[System.Net.Sockets" false).findings =
      SecurityLevel.HIGH ∧
    (scan_powershell_code "[System.Net.Sockets" false).overall_level ≠
      findingsMax (scan_powershell_code "[System.Net.Sockets" false).findings := by
  decide

/-! ### `validate_generated_output` (claim C4) -/

/-- The `dangerous_mismatch_keywords` table. -/
def dangerous_mismatch_keywords : List (String × String) :=
  [("delete", "Format-Volume"),
   ("delete", "Clear-Disk"),
   ("read", "Remove-Item"),
   ("list", "Stop-Computer"),
   ("get", "Set-ExecutionPolicy")]

/-- The warning appended by Check 4 of `validate_generated_output`. -/
def complexScriptWarning : String :=
  "Complex script without try/catch. Consider adding error handling."

/-- The warning appended by Check 3 of `validate_generated_output`. -/
def forceFlagWarning : String :=
  "Script uses -Force flag. Consider testing with -WhatIf first."

/-- One Check-2 mismatch warning. -/
def mismatchWarning (kv : String × String) : String :=
  "Generated code contains " ++ sqS kv.2 ++ " but request mentioned " ++
    sqS kv.1 ++ ". Please review carefully."

/-- One Check-5 credential warning. -/
def credentialWarning (msg : String) : String :=
  "Removed hardcoded credential: " ++ msg

/-- `validate_generated_output`, restricted to its decision components:
the returned `is_safe` flag and the accumulated `warnings` list.  The
`modified_code` component (the `re.sub` credential redaction) is not
modelled; the warning the redaction loop appends is. -/
def validate_generated_output (generated_code original_request : String) :
    Bool × List String :=
  let scan_result := scan_powershell_code generated_code false
  if scan_result.overall_level = SecurityLevel.CRITICAL then
    (false,
     ["Generated code was blocked due to critical security issues.",
      "Issues found: " ++ pyJoin ", " scan_result.blocked_operations])
  else
    let request_lower := pyLower original_request
    let warnings := dangerous_mismatch_keywords.foldl
      (fun ws kv =>
        if strContains request_lower kv.1 &&
            strContains (pyLower generated_code) (pyLower kv.2) then
          ws ++ [mismatchWarning kv]
        else ws) []
    let warnings :=
      if strContains generated_code "-Force" &&
          !strContains generated_code "-WhatIf" then
        warnings ++ [forceFlagWarning]
      else warnings
    let warnings :=
      if (pySplitNl generated_code).length > 30 then
        if !strContains (pyLower generated_code) "try" ||
            !strContains (pyLower generated_code) "catch" then
          warnings ++ [complexScriptWarning]
        else warnings
      else warnings
    let warnings := CREDENTIAL_PATTERNS.foldl
      (fun ws pm =>
        if reSearch pm.1 generated_code then ws ++ [credentialWarning pm.2]
        else ws) warnings
    (scan_result.is_safe &&
       decide (scan_result.overall_level ≠ SecurityLevel.CRITICAL),
     warnings)

/-- Membership in a guarded-append fold. -/
theorem mem_foldl_guard_append {α : Type} (c : α → Bool) (f : α → String)
    (y : String) :
    ∀ (l : List α) (init : List String),
      (y ∈ l.foldl (fun ws x => if c x then ws ++ [f x] else ws) init ↔
        y ∈ init ∨ ∃ x, x ∈ l ∧ c x = true ∧ y = f x) := by
  intro l
  induction l with
  | nil => intro init; simp
  | cons a t ih =>
    intro init
    simp only [List.foldl_cons]
    by_cases hc : c a
    · rw [if_pos hc, ih]
      simp only [List.mem_append, List.mem_cons, List.not_mem_nil, or_false]
      constructor
      · rintro ((h | h) | ⟨x, hx, hcx, hy⟩)
        · exact Or.inl h
        · exact Or.inr ⟨a, Or.inl rfl, hc, h⟩
        · exact Or.inr ⟨x, Or.inr hx, hcx, hy⟩
      · rintro (h | ⟨x, (rfl | hx), hcx, hy⟩)
        · exact Or.inl (Or.inl h)
        · exact Or.inl (Or.inr hy)
        · exact Or.inr ⟨x, hx, hcx, hy⟩
    · rw [if_neg hc, ih]
      simp only [List.mem_cons]
      constructor
      · rintro (h | ⟨x, hx, hcx, hy⟩)
        · exact Or.inl h
        · exact Or.inr ⟨x, Or.inr hx, hcx, hy⟩
      · rintro (h | ⟨x, (rfl | hx), hcx, hy⟩)
        · exact Or.inl h
        · exact absurd hcx (by simp [hc])
        · exact Or.inr ⟨x, hx, hcx, hy⟩

/-- The complex-script warning differs from every Check-2 mismatch warning. -/
theorem complexWarning_ne_mismatch (kv : String × String)
    (hkv : kv ∈ dangerous_mismatch_keywords) :
    complexScriptWarning ≠ mismatchWarning kv := by
  simp only [dangerous_mismatch_keywords, List.mem_cons, List.mem_singleton] at hkv
  rcases hkv with rfl | rfl | rfl | rfl | rfl | h
  · decide
  · decide
  · decide
  · decide
  · decide
  · simp at h

/-- The complex-script warning differs from every Check-5 credential
warning. -/
theorem complexWarning_ne_credential (pm : Regex × String)
    (hpm : pm ∈ CREDENTIAL_PATTERNS) :
    complexScriptWarning ≠ credentialWarning pm.2 := by
  simp only [CREDENTIAL_PATTERNS, List.mem_cons, List.mem_singleton] at hpm
  rcases hpm with rfl | rfl | rfl | rfl | rfl | rfl | rfl | h
  · decide
  · decide
  · decide
  · decide
  · decide
  · decide
  · decide
  · simp at h

/-- `(!a || !b) = true ↔ (a = false ∨ b = false)`. -/
theorem not_or_not_eq_true (a b : Bool) :
    ((!a || !b) = true) ↔ (a = false ∨ b = false) := by
  cases a <;> cases b <;> simp

/-- **C4 (amended).** When the security scan of the generated code is not
CRITICAL, `validate_generated_output` appends the complex-script try/catch
warning if and only if the code has more than 30 lines and lacks the token
`try` *or* lacks the token `catch` (case-insensitive) — not only when it
lacks both. -/
theorem validate_output_complex_warning (generated_code original_request : String)
    (h : (scan_powershell_code generated_code false).overall_level ≠
      SecurityLevel.CRITICAL) :
    (complexScriptWarning ∈ (validate_generated_output generated_code
        original_request).2 ↔
      ((pySplitNl generated_code).length > 30 ∧
        (strContains (pyLower generated_code) "try" = false ∨
          strContains (pyLower generated_code) "catch" = false))) := by
  simp only [validate_generated_output, if_neg h]
  rw [mem_foldl_guard_append]
  have hcred : ¬ ∃ x, x ∈ CREDENTIAL_PATTERNS ∧
      reSearch x.1 generated_code = true ∧
      complexScriptWarning = credentialWarning x.2 := by
    rintro ⟨x, hx, -, hy⟩
    exact complexWarning_ne_credential x hx hy
  simp only [hcred, or_false]
  have hw1 : complexScriptWarning ∉ dangerous_mismatch_keywords.foldl
      (fun ws kv =>
        if strContains (pyLower original_request) kv.1 &&
            strContains (pyLower generated_code) (pyLower kv.2) then
          ws ++ [mismatchWarning kv]
        else ws) [] := by
    rw [mem_foldl_guard_append]
    rintro (hin | ⟨x, hx, -, hy⟩)
    · simp at hin
    · exact complexWarning_ne_mismatch x hx hy
  have hforce_ne : complexScriptWarning ≠ forceFlagWarning := by decide
  have hw2 : complexScriptWarning ∉
      (if strContains generated_code "-Force" &&
          !strContains generated_code "-WhatIf" then
        (dangerous_mismatch_keywords.foldl
          (fun ws kv =>
            if strContains (pyLower original_request) kv.1 &&
                strContains (pyLower generated_code) (pyLower kv.2) then
              ws ++ [mismatchWarning kv]
            else ws) []) ++ [forceFlagWarning]
      else
        dangerous_mismatch_keywords.foldl
          (fun ws kv =>
            if strContains (pyLower original_request) kv.1 &&
                strContains (pyLower generated_code) (pyLower kv.2) then
              ws ++ [mismatchWarning kv]
            else ws) []) := by
    split_ifs with hf
    · intro hmem
      rcases List.mem_append.mp hmem with hmem | hmem
      · exact hw1 hmem
      · simp only [List.mem_cons, List.not_mem_nil, or_false] at hmem
        exact hforce_ne hmem
    · exact hw1
  by_cases h30 : (pySplitNl generated_code).length > 30
  · by_cases htc : !strContains (pyLower generated_code) "try" ||
        !strContains (pyLower generated_code) "catch"
    · rw [if_pos h30, if_pos htc]
      simp only [List.mem_append, List.mem_cons, List.not_mem_nil, or_false]
      constructor
      · intro _
        exact ⟨h30, (not_or_not_eq_true _ _).mp htc⟩
      · intro _
        exact Or.inr trivial
    · rw [if_pos h30, if_neg htc]
      constructor
      · intro hmem
        exact absurd hmem hw2
      · rintro ⟨-, hlack⟩
        exact absurd ((not_or_not_eq_true _ _).mpr hlack) htc
  · rw [if_neg h30]
    constructor
    · intro hmem
      exact absurd hmem hw2
    · rintro ⟨h30x, -⟩
      exact absurd h30x h30

/-- A 31-line generated script that contains `try` but no `catch`. -/
def c4CodeTryOnly : String := "try\na\na\na\na\na\na\na\na\na\na\na\na\na\na\na\na\na\na\na\na\na\na\na\na\na\na\na\na\na\na"

/-- A 31-line generated script that contains neither `try` nor `catch`. -/
def c4CodeNoTry : String := "a\na\na\na\na\na\na\na\na\na\na\na\na\na\na\na\na\na\na\na\na\na\na\na\na\na\na\na\na\na\na"

/-- **C4 counterexample.** On a 31-line script containing `try` but not
`catch` (scan not CRITICAL), the code appends the complex-script warning,
but the claim as stated — warn iff the script lacks *both* tokens — says it
must not: the claimed equivalence is false at this input. -/
theorem validate_output_complex_warning_counterexample :
    (scan_powershell_code c4CodeTryOnly false).overall_level ≠
      SecurityLevel.CRITICAL ∧
    ¬ (complexScriptWarning ∈
        (validate_generated_output c4CodeTryOnly "please write a script").2 ↔
      ((pySplitNl c4CodeTryOnly).length > 30 ∧
        strContains (pyLower c4CodeTryOnly) "try" = false ∧
        strContains (pyLower c4CodeTryOnly) "catch" = false)) := by
  decide

/-- Witness for the amended C4 at a 31-line script lacking both tokens. -/
theorem validate_output_complex_warning_witness :
    (scan_powershell_code c4CodeNoTry false).overall_level ≠
      SecurityLevel.CRITICAL ∧
    complexScriptWarning ∈ (validate_generated_output c4CodeNoTry "hello").2 :=
  ⟨by decide,
   (validate_output_complex_warning c4CodeNoTry "hello" (by decide)).mpr
     ⟨by decide, Or.inl (by decide)⟩⟩

/-! ## Topic validator (`src/ai/guardrails/topic_validator.py`)

Confidences are Python floats combined from 0.3/0.15 decimals; they are
modelled as `ℚ`.  (No theorem below depends on a confidence comparison whose
float rounding could differ from the exact rational value.) -/

/-- `TopicCategory` enum. -/
inductive TopicCategory where
  | POWERSHELL_SCRIPTING
  | SCRIPT_ANALYSIS
  | SCRIPT_GENERATION
  | SCRIPTING_LANGUAGES
  | DEVOPS_AUTOMATION
  | SYSTEM_ADMINISTRATION
  | GENERAL_GREETING
  | OFF_TOPIC
  deriving DecidableEq, Repr

/-- `TopicValidationResult` dataclass. -/
structure TopicValidationResult where
  is_valid : Bool
  category : TopicCategory
  confidence : ℚ
  message : Option String := none
  is_script_request : Bool := false
  suggested_response : Option String := none
  deriving DecidableEq, Repr

/-- `POWERSHELL_KEYWORDS` (a Python set literal, transcribed in source order;
`'function'`, `'module'` and `'pipeline'` appear twice in the literal and are
collapsed by `dedup` wherever the set semantics matters). -/
def POWERSHELL_KEYWORDS : List String :=
  ["powershell", "ps1", "pwsh", "cmdlet", "cmdlets", "get-", "set-", "new-",
   "remove-", "invoke-", "out-", "write-host", "write-output", "param",
   "function", "module", "import-module", "export-modulemember", "pipeline",
   "psobject", "pscustomobject", "scriptblock", "psscriptroot", "pscommandpath",
   "erroractionpreference", "verbosepreference", "progresspreference",
   "foreach-object", "where-object", "select-object", "sort-object",
   "group-object", "measure-object", "format-table", "format-list",
   "convertto-json", "convertfrom-json", "convertto-xml", "export-csv",
   "import-csv", "get-content", "set-content", "add-content", "test-path",
   "get-childitem", "copy-item", "move-item", "remove-item", "new-item",
   "get-process", "stop-process", "start-process", "get-service",
   "start-service", "stop-service", "restart-service", "get-wmiobject",
   "get-ciminstance", "invoke-command", "enter-pssession", "new-pssession",
   "try", "catch", "finally", "throw", "trap", "-erroraction", "-verbose",
   "batch", "bat", "cmd", "command prompt", "vbscript", "wsh", "cscript",
   "wscript", "windows script",
   "script", "scripting", "automation", "automate", "scheduled task",
   "task scheduler", "cron", "shell", "bash", "command line", "cli",
   "terminal", "console", "parameter", "argument", "variable", "loop",
   "conditional", "function", "module", "library", "api call",
   "azure", "aws", "gcp", "cloud", "ci/cd", "pipeline", "deployment",
   "infrastructure", "configuration", "provisioning", "terraform", "ansible",
   "docker", "kubernetes", "container", "virtualization", "hyper-v", "vmware",
   "registry", "active directory", "ad", "ldap", "group policy", "gpo",
   "iis", "web server", "dns", "dhcp", "file server", "share", "permission",
   "security", "firewall", "antivirus", "backup", "restore", "log",
   "event log", "performance", "monitoring", "wmi", "cim", "dsc",
   "desired state",
   "code", "debug", "error", "exception", "syntax", "best practice",
   "optimize", "refactor", "test", "unit test", "pester", "validate"]

/-- `SCRIPT_GENERATION_KEYWORDS`. -/
def SCRIPT_GENERATION_KEYWORDS : List String :=
  ["create", "generate", "write", "make", "build", "design", "develop",
   "help me write", "help me create", "can you write", "can you create",
   "i need a script", "i want a script", "script that", "script to",
   "script for", "new script", "custom script", "automate this",
   "automation for", "how to automate", "how do i script"]

/-- `OFF_TOPIC_KEYWORDS`. -/
def OFF_TOPIC_KEYWORDS : List String :=
  ["recipe", "cooking", "weather", "sports", "movie", "music", "game",
   "dating", "relationship", "medical", "health", "legal", "lawyer",
   "investment", "stock", "crypto", "bitcoin", "lottery", "gambling",
   "politics", "election", "religion", "philosophy", "astrology",
   "celebrity", "gossip", "fashion", "beauty", "makeup", "diet",
   "exercise", "workout", "travel", "vacation", "hotel", "flight"]

/-- Wordness of an optional character (out of bounds counts as non-word). -/
def isWordOpt : Option Char → Bool
  | none => false
  | some c => isWordChar c

/-- Characters of the `[\w\-]` class. -/
def tkClass (c : Char) : Bool := isWordChar c || c == '-'

/-- For a maximal `[\w\-]` run starting a candidate match, the longest
prefix length `e ≥ 1` whose end sits on a `\b` boundary (the backtracking of
the trailing `\b` of `\b[\w\-]+\b`). -/
def pickEnd (run : List Char) (after : Option Char) : Option ℕ :=
  ((List.range' 1 run.length).reverse).find? (fun e =>
    isWordChar (run.getD (e - 1) ' ') !=
      isWordOpt (if e < run.length then run.get? e else after))

/-- Scanner for `re.findall(r'\b[\w\-]+\b', s)`: walk the string keeping the
previous character, and at each `\b`-boundary start of a `[\w\-]` run emit
the longest prefix that also ends on a boundary, continuing after it. -/
def tokensAux : ℕ → Option Char → List Char → List String
  | 0, _, _ => []
  | _ + 1, _, [] => []
  | f + 1, prev, c :: rest =>
    if tkClass c && (isWordOpt prev != isWordChar c) then
      let run := (c :: rest).takeWhile tkClass
      match pickEnd run ((c :: rest).drop run.length).head? with
      | some e =>
          String.mk (run.take e) ::
            tokensAux f (some (run.getD (e - 1) c)) ((c :: rest).drop e)
      | none => tokensAux f (some c) rest
    else tokensAux f (some c) rest

/-- `re.findall(r'\b[\w\-]+\b', s)`. -/
def pyFindTokens (s : String) : List String :=
  tokensAux (s.data.length + 1) none s.data

/-- `_normalize_text`. -/
def normalize_text (text : String) : String := pyStrip (pyLower text)

/-- `_check_keywords(text, keywords) -> (match_found, confidence)`. -/
def check_keywords (text : String) (keywords : List String) : Bool × ℚ :=
  let normalized := normalize_text text
  let words := (pyFindTokens normalized).dedup
  let nMatches := (words.filter (fun w => keywords.contains w)).length
  let subMatches :=
    (keywords.dedup.filter (fun kw => strContains normalized kw)).length
  let total := nMatches + subMatches
  if total = 0 then (false, 0)
  else (true, min 1 ((0.3 : ℚ) + total * (0.15 : ℚ)))

/-- Literal string pattern (case-sensitive). -/
def rstr (s : String) : Regex := rseq (s.data.map rchr)

/-- `[\s!?.]` class. -/
def rPunct : Regex :=
  Regex.cls (fun c => c.isWhitespace || c == '!' || c == '?' || c == '.')

/-- `GREETING_PATTERNS` (each fully anchored `^...$`). -/
def GREETING_PATTERNS : List Regex :=
  [rseq [ralts [rstrCI "hi", rstrCI "hello", rstrCI "hey", rstrCI "greetings",
       rseq [rstrCI "good", rwsp,
         ralts [rstrCI "morning", rstrCI "afternoon", rstrCI "evening"]]],
     Regex.star rPunct],
   rseq [ralts [rstrCI "how are you",
       rseq [rstrCI "what", ropt (rchr aposChar), rstrCI "s up"],
       rstrCI "sup"],
     Regex.star rPunct],
   rseq [ralts [rseq [rstrCI "thank", ropt (rchrCI 's')], rstrCI "thank you",
       rstrCI "ty"],
     Regex.star rPunct]]

/-- Anchored full match (`re.match` of a pattern ending in `$`): the match
must consume the whole string. -/
def reFullMatch (r : Regex) (s : String) : Bool :=
  (matchO (reFuel r s.data) r s.data
    (fun rest => if rest.isEmpty then some [] else none)).isSome

/-- `_check_patterns` (each pattern is tried with `re.match` on the
normalized text). -/
def check_patterns (text : String) (patterns : List Regex) : Bool :=
  let normalized := normalize_text text
  patterns.any (fun p => reFullMatch p normalized)

/-- The `generation_patterns` table inside `is_script_generation_request`
(searched case-sensitively against already-lowercased text). -/
def generation_patterns : List Regex :=
  [rseq [ralts [rstr "create", rstr "generate", rstr "write", rstr "make",
       rstr "build"], rwsp,
     ropt (rseq [rstr "a", rwsp]), ropt (rseq [rstr "powershell", rwsp]),
     rstr "script"],
   rseq [rstr "script", rwsp,
     ralts [rstr "that", rstr "to", rstr "for", rstr "which"]],
   rseq [ropt (rseq [rstr "i", rwsp]), rstr "need", rwsp,
     ropt (rseq [rstr "a", rwsp]), rstr "script"],
   rseq [rstr "can", rwsp, rstr "you", rwsp,
     ralts [rstr "write", rstr "create", rstr "make", rstr "generate"]],
   rseq [rstr "help", rwsp, ropt (rseq [rstr "me", rwsp]),
     ralts [rstr "write", rstr "create", rstr "make", rstr "generate"]],
   rseq [rstr "how", rwsp, ralts [rstr "to", rseq [rstr "do", rwsp, rstr "i"]],
     rwsp, ralts [rstr "write", rstr "create", rstr "make"], rwsp,
     ropt (rseq [rstr "a", rwsp]), rstr "script"]]

/-- `is_script_generation_request`. -/
def is_script_generation_request (text : String) : Bool :=
  let normalized := normalize_text text
  let has_generation_keyword := (check_keywords normalized SCRIPT_GENERATION_KEYWORDS).1
  let has_script_context := (check_keywords normalized POWERSHELL_KEYWORDS).1
  let has_explicit_pattern := generation_patterns.any (fun p => reSearch p normalized)
  has_explicit_pattern || (has_generation_keyword && has_script_context)

/-- The fixed capability-list redirect returned by the off-topic-keyword
layer. -/
def offTopicRedirect : String :=
  "I" ++ aposS ++ "m PSScript AI, specialized in PowerShell and scripting topics. I can help you with:\n\n- **PowerShell scripting** - Writing, debugging, and optimizing scripts\n- **Script analysis** - Security reviews, code quality checks\n- **Automation** - DevOps, CI/CD, scheduled tasks\n- **System administration** - Active Directory, Windows Server, services\n- **Script generation** - Creating new PowerShell scripts from requirements\n\nWhat PowerShell or scripting challenge can I help you with today?"

/-- The fixed default redirect returned by the final layer. -/
def topicDefaultRedirect : String :=
  "I" ++ aposS ++ "m PSScript AI, your PowerShell scripting assistant. I didn" ++
  aposS ++ "t quite understand how your request relates to PowerShell or scripting.\n\nHere" ++
  aposS ++ "s what I can help you with:\n\n- **Write scripts** - \"Create a PowerShell script that backs up files to Azure\"\n- **Debug code** - \"Why is my Get-ChildItem command not working?\"\n- **Explain concepts** - \"How do parameters work in PowerShell functions?\"\n- **Review scripts** - \"Can you analyze this script for security issues?\"\n- **Automate tasks** - \"How do I schedule a PowerShell script?\"\n\nCould you rephrase your question with more PowerShell context?"

/-- `validate_powershell_topic`.  (`extract_script_requirements` is computed
and discarded by the source in the script-generation branch, so it is not
modelled.) -/
def validate_powershell_topic (user_message : String)
    (conversation_history : Option (List ChatMessage)) :
    TopicValidationResult :=
  let normalized := normalize_text user_message
  if check_patterns user_message GREETING_PATTERNS then
    { is_valid := true
      category := TopicCategory.GENERAL_GREETING
      confidence := 0.95
      message := some "Greeting detected" }
  else if is_script_generation_request user_message then
    { is_valid := true
      category := TopicCategory.SCRIPT_GENERATION
      confidence := 0.9
      message := some "Script generation request detected"
      is_script_request := true }
  else
    let ps := check_keywords normalized POWERSHELL_KEYWORDS
    if ps.1 then
      let category :=
        if ["analyze", "review", "check", "explain"].any
            (fun kw => strContains normalized kw) then
          TopicCategory.SCRIPT_ANALYSIS
        else if ["azure", "aws", "docker", "kubernetes", "ci/cd"].any
            (fun kw => strContains normalized kw) then
          TopicCategory.DEVOPS_AUTOMATION
        else if ["bash", "shell", "python", "cmd", "batch"].any
            (fun kw => strContains normalized kw) then
          TopicCategory.SCRIPTING_LANGUAGES
        else if ["server", "admin", "system", "registry", "service"].any
            (fun kw => strContains normalized kw) then
          TopicCategory.SYSTEM_ADMINISTRATION
        else TopicCategory.POWERSHELL_SCRIPTING
      { is_valid := true
        category := category
        confidence := ps.2
        message := some "PowerShell/scripting topic detected" }
    else
      let off := check_keywords normalized OFF_TOPIC_KEYWORDS
      if off.1 ∧ off.2 > 0.5 then
        { is_valid := false
          category := TopicCategory.OFF_TOPIC
          confidence := off.2
          message := some "Off-topic request detected"
          suggested_response := some offTopicRedirect }
      else
        let recent_topics :=
          match conversation_history with
          | none => []
          | some hist =>
            (hist.drop (hist.length - 3)).foldl
              (fun (acc : List ℚ) (m : ChatMessage) =>
                if m.role == "user" then
                  let ck := check_keywords m.content POWERSHELL_KEYWORDS
                  if ck.1 then acc ++ [ck.2] else acc
                else acc) []
        let fallback :=
          if (pySplitWs normalized).length < 5 then
            ({ is_valid := true
               category := TopicCategory.POWERSHELL_SCRIPTING
               confidence := 0.4
               message := some "Short message - assuming relevance" } :
              TopicValidationResult)
          else
            { is_valid := false
              category := TopicCategory.OFF_TOPIC
              confidence := 0.6
              message := some "Could not determine PowerShell/scripting relevance"
              suggested_response := some topicDefaultRedirect }
        if recent_topics.length ≠ 0 then
          let avg := recent_topics.sum / (recent_topics.length : ℚ)
          if avg > 0.3 then
            { is_valid := true
              category := TopicCategory.POWERSHELL_SCRIPTING
              confidence := avg * 0.7
              message := some "Assumed relevant based on conversation context" }
          else fallback
        else fallback

/-- The Scenario-2 message `"What's your favorite pizza topping?"`. -/
def pizzaMessage : String := "What" ++ aposS ++ "s your favorite pizza topping?"

/-- **C8.** On `"What's your favorite pizza topping?"` with no conversation
history, `validate_powershell_topic` returns `is_valid = false`,
`category = OFF_TOPIC`, and a non-empty `suggested_response` (the fixed
default redirect: the message has exactly 5 words, so the short-message
layer does not fire and the final layer answers). -/
theorem validate_pizza_off_topic :
    (validate_powershell_topic pizzaMessage none).is_valid = false ∧
    (validate_powershell_topic pizzaMessage none).category =
      TopicCategory.OFF_TOPIC ∧
    (validate_powershell_topic pizzaMessage none).suggested_response =
      some topicDefaultRedirect ∧
    topicDefaultRedirect ≠ "" := by
  refine ⟨?_, ?_, ?_, by decide⟩ <;> rfl

/-! ## Pester test generator (`src/ai/utils/pester_generator.py`) -/

/-- The tail of the `function_pattern` regex after its `(?:^|\n)` prefix:
`\s*function\s+([\w-]+)\s*(?:\{|\()` (case-sensitive; every quantified class
here is disjoint from what follows it, so greedy matching needs no
backtracking).  Returns the captured name and the remainder after the match
on success. -/
def pfTail (q : List Char) : Option (String × List Char) :=
  let q1 := q.dropWhile Char.isWhitespace
  if listIsPrefix ("function").data q1 then
    let q2 := q1.drop 8
    let ws := q2.takeWhile Char.isWhitespace
    if ws.length ≥ 1 then
      let q3 := q2.drop ws.length
      let name := q3.takeWhile tkClass
      if name.length ≥ 1 then
        let q4 := (q3.drop name.length).dropWhile Char.isWhitespace
        match q4 with
        | c :: rest =>
          if c == lbraceChar || c == '(' then some (String.mk name, rest)
          else none
        | [] => none
      else none
    else none
  else none

/-- `re.finditer` scanner for `function_pattern`: at each position try the
`^` alternative (when at a line start) and then the literal-`\n` alternative,
emitting the captured name and continuing after the match. -/
def parseFunctionsAux : ℕ → Bool → List Char → List String
  | 0, _, _ => []
  | _ + 1, _, [] => []
  | f + 1, atLineStart, c :: rest =>
    match (if atLineStart then pfTail (c :: rest) else none) with
    | some (name, remaining) => name :: parseFunctionsAux f false remaining
    | none =>
      match (if c == '\n' then pfTail rest else none) with
      | some (name, remaining) => name :: parseFunctionsAux f false remaining
      | none => parseFunctionsAux f (c == '\n') rest

/-- `PesterGenerator.parse_functions`, restricted to the list of detected
function names (one entry per `function_pattern` match).  The per-function
details the source also extracts (parameters, outputs, attributes) play no
role in any claim and are not modelled; the length of this list is the
length of the source's `FunctionInfo` list. -/
def parse_functions (script_content : String) : List String :=
  parseFunctionsAux (script_content.data.length + 1) true script_content.data

/-- The placeholder file returned by `generate_pester_tests` when no
functions were found. -/
def pesterPlaceholder (script_name : String) : String :=
  "# No functions found in " ++ script_name ++
    "\n# Add functions to generate Pester tests\n"

/-- `generate_pester_tests` (the module-level convenience function).  `some`
is the zero-functions placeholder branch; `none` marks the branch that
delegates to `create_test_file(generate_tests(functions), script_name)`,
whose rendered output no claim needs and which is not modelled. -/
def generate_pester_tests (script_content script_name : String) :
    Option String :=
  if (parse_functions script_content).isEmpty then
    some (pesterPlaceholder script_name)
  else none

/-- **C5 counterexample.** On the function-free script `"Get-Date"`,
`generate_pester_tests` returns the placeholder — but the placeholder is a
*two*-line comment (three newline-separated fields, the last empty) and
contains no assertion at all (no `Should`, no `Test-Path`): the claim's
"one-line placeholder test file that asserts the script file exists" is
false of it. -/
theorem generate_pester_tests_placeholder_counterexample :
    parse_functions "Get-Date" = [] ∧
    generate_pester_tests "Get-Date" "Script.ps1" =
      some (pesterPlaceholder "Script.ps1") ∧
    (pySplitNl (pesterPlaceholder "Script.ps1")).length ≠ 1 ∧
    strContains (pesterPlaceholder "Script.ps1") "Should" = false ∧
    strContains (pesterPlaceholder "Script.ps1") "Test-Path" = false := by
  decide

/-- **C5 (amended).** For every script in which `parse_functions` detects
zero functions, `generate_pester_tests` returns the fixed two-line comment
placeholder naming the script file ("# No functions found in …"), which
contains no tests or assertions. -/
theorem generate_pester_tests_no_functions (script_content script_name : String)
    (h : parse_functions script_content = []) :
    generate_pester_tests script_content script_name =
      some (pesterPlaceholder script_name) := by
  simp only [generate_pester_tests, h]
  rfl

/-- Witness for the amended C5 at the script `"1 + 1"`. -/
theorem generate_pester_tests_no_functions_witness :
    parse_functions "1 + 1" = [] ∧
    generate_pester_tests "1 + 1" "Script.ps1" =
      some (pesterPlaceholder "Script.ps1") :=
  ⟨by decide, generate_pester_tests_no_functions "1 + 1" "Script.ps1" (by decide)⟩

/-! ## `difflib.SequenceMatcher` (CPython 3.11), as called by
`src/ai/utils/code_diff.py`

`CodeDiffGenerator` delegates its line matching and similarity computation
to `difflib.SequenceMatcher(None, a, b)` (so `isjunk = None` and
`autojunk = True`).  The functions below transcribe the parts it calls:
`__chain_b` (the `b2j` map with popular-entry deletion), `find_longest_match`
(the junk-free dynamic program plus the four extension loops),
`get_matching_blocks` (the worklist recursion, sort, and adjacent-block
collapse), `get_opcodes`, and `ratio`.  Loops whose bound is not structural
carry an explicit fuel argument that provably dominates their iteration
count.  Sequences are `List α`; the two instantiations used by the diff
generator are lines (`α = String`) and characters (`α = Char`). -/

/-- Ascending list of positions of `x` in `b` (`b2j` before junk purge). -/
def occIdx {α : Type} [DecidableEq α] (b : List α) (x : α) : List ℕ :=
  (List.range b.length).filter (fun i => b.get? i = some x)

/-- The autojunk "popular" test: `b` has at least 200 elements and `x`
occurs more than `len(b) // 100 + 1` times. -/
def isPopular {α : Type} [DecidableEq α] (b : List α) (x : α) : Bool :=
  decide (200 ≤ b.length) && decide (b.length / 100 + 1 < (occIdx b x).length)

/-- `self.b2j` after `__chain_b`: positions of `x` in `b`, with popular
entries deleted (`isjunk = None`, so no junk purge). -/
def b2j {α : Type} [DecidableEq α] (b : List α) (x : α) : List ℕ :=
  if isPopular b x then [] else occIdx b x

/-- The list of `j` values the inner loop of `find_longest_match` visits for
row `i`: `b2j.get(a[i], [])`, stopping at `j ≥ bhi` (`break`) and skipping
`j < blo` (`continue`). -/
def rowJs {α : Type} [DecidableEq α] (a b : List α) (blo bhi i : ℕ) :
    List ℕ :=
  match a.get? i with
  | none => []
  | some x => ((b2j b x).takeWhile (fun j => j < bhi)).filter (fun j => blo ≤ j)

/-- One inner-loop step of the `find_longest_match` dynamic program:
`k = newj2len[j] = j2len.get(j-1, 0) + 1` (the `j = 0` guard models Python's
`.get(-1, 0)`), updating `best` when `k > bestsize`.  (`i-k+1`/`j-k+1` are
written `i+1-k`/`j+1-k`; `k` never exceeds `min i j + 1`, so the `ℕ`
subtraction is exact.) -/
def flmCell (j2lenPrev : ℕ → ℕ) (i : ℕ)
    (st : (ℕ → ℕ) × (ℕ × ℕ × ℕ)) (j : ℕ) : (ℕ → ℕ) × (ℕ × ℕ × ℕ) :=
  let k := (if j = 0 then 0 else j2lenPrev (j - 1)) + 1
  (Function.update st.1 j k,
   if st.2.2.2 < k then (i + 1 - k, j + 1 - k, k) else st.2)

/-- One outer-loop row of the dynamic program (`newj2len = {}` then the
inner loop). -/
def flmRow {α : Type} [DecidableEq α] (a b : List α) (blo bhi : ℕ)
    (st : (ℕ → ℕ) × (ℕ × ℕ × ℕ)) (i : ℕ) : (ℕ → ℕ) × (ℕ × ℕ × ℕ) :=
  ((rowJs a b blo bhi i).foldl (flmCell st.1 i) (fun _ => 0, st.2))

/-- The full dynamic program of `find_longest_match` over rows
`alo ≤ i < ahi`, starting from `j2len = {}` and `best = (alo, blo, 0)`. -/
def flmDP {α : Type} [DecidableEq α] (a b : List α) (alo ahi blo bhi : ℕ) :
    (ℕ → ℕ) × (ℕ × ℕ × ℕ) :=
  (List.range' alo (ahi - alo)).foldl (flmRow a b blo bhi)
    (fun _ => 0, (alo, blo, 0))

/-- First extension loop: grow the best block backwards over equal non-junk
elements. -/
def extendHead {α : Type} [DecidableEq α] (a b : List α) (junk : α → Bool)
    (alo blo : ℕ) : ℕ → ℕ × ℕ × ℕ → ℕ × ℕ × ℕ
  | 0, st => st
  | fuel + 1, (besti, bestj, bestsize) =>
    if alo < besti ∧ blo < bestj ∧
        (b.get? (bestj - 1)).any junk = false ∧
        a.get? (besti - 1) = b.get? (bestj - 1) then
      extendHead a b junk alo blo fuel (besti - 1, bestj - 1, bestsize + 1)
    else (besti, bestj, bestsize)

/-- Second extension loop: grow the best block forwards over equal non-junk
elements. -/
def extendTail {α : Type} [DecidableEq α] (a b : List α) (junk : α → Bool)
    (ahi bhi : ℕ) : ℕ → ℕ × ℕ × ℕ → ℕ × ℕ × ℕ
  | 0, st => st
  | fuel + 1, (besti, bestj, bestsize) =>
    if besti + bestsize < ahi ∧ bestj + bestsize < bhi ∧
        (b.get? (bestj + bestsize)).any junk = false ∧
        a.get? (besti + bestsize) = b.get? (bestj + bestsize) then
      extendTail a b junk ahi bhi fuel (besti, bestj, bestsize + 1)
    else (besti, bestj, bestsize)

/-- Third extension loop: grow backwards over equal *junk* elements. -/
def extendHeadJunk {α : Type} [DecidableEq α] (a b : List α) (junk : α → Bool)
    (alo blo : ℕ) : ℕ → ℕ × ℕ × ℕ → ℕ × ℕ × ℕ
  | 0, st => st
  | fuel + 1, (besti, bestj, bestsize) =>
    if alo < besti ∧ blo < bestj ∧
        (b.get? (bestj - 1)).any junk = true ∧
        a.get? (besti - 1) = b.get? (bestj - 1) then
      extendHeadJunk a b junk alo blo fuel (besti - 1, bestj - 1, bestsize + 1)
    else (besti, bestj, bestsize)

/-- Fourth extension loop: grow forwards over equal *junk* elements. -/
def extendTailJunk {α : Type} [DecidableEq α] (a b : List α) (junk : α → Bool)
    (ahi bhi : ℕ) : ℕ → ℕ × ℕ × ℕ → ℕ × ℕ × ℕ
  | 0, st => st
  | fuel + 1, (besti, bestj, bestsize) =>
    if besti + bestsize < ahi ∧ bestj + bestsize < bhi ∧
        (b.get? (bestj + bestsize)).any junk = true ∧
        a.get? (besti + bestsize) = b.get? (bestj + bestsize) then
      extendTailJunk a b junk ahi bhi fuel (besti, bestj, bestsize + 1)
    else (besti, bestj, bestsize)

/-- `SequenceMatcher.find_longest_match` (with `isjunk = None`, so
`junk = fun _ => false` at every use; the parameter is kept to mirror the
source's `isbjunk` tests in the four loops). -/
def find_longest_match {α : Type} [DecidableEq α] (a b : List α)
    (junk : α → Bool) (alo ahi blo bhi : ℕ) : ℕ × ℕ × ℕ :=
  let st := (flmDP a b alo ahi blo bhi).2
  let st := extendHead a b junk alo blo st.1 st
  let st := extendTail a b junk ahi bhi ahi st
  let st := extendHeadJunk a b junk alo blo st.1 st
  let st := extendTailJunk a b junk ahi bhi ahi st
  st

/-- Lexicographic order on matching-block triples (Python tuple `sort`). -/
def blockLe (x y : ℕ × ℕ × ℕ) : Bool :=
  decide (x.1 < y.1) ||
    (decide (x.1 = y.1) &&
      (decide (x.2.1 < y.2.1) ||
        (decide (x.2.1 = y.2.1) && decide (x.2.2 ≤ y.2.2))))

/-- Insertion into a `blockLe`-sorted list. -/
def insertBlock (x : ℕ × ℕ × ℕ) : List (ℕ × ℕ × ℕ) → List (ℕ × ℕ × ℕ)
  | [] => [x]
  | y :: t => if blockLe x y then x :: y :: t else y :: insertBlock x t

/-- `matching_blocks.sort()` (insertion sort; Python's sort computes the
same sorted sequence). -/
def sortBlocks (l : List (ℕ × ℕ × ℕ)) : List (ℕ × ℕ × ℕ) :=
  l.foldr insertBlock []

/-- The worklist loop of `get_matching_blocks` (the queue is a stack:
`queue.pop()` takes the most recently appended slice).  Fuel dominates the
number of pops: at most `2·len(a)+2` slices are ever queued. -/
def gmbAux {α : Type} [DecidableEq α] (a b : List α) (junk : α → Bool) :
    ℕ → List (ℕ × ℕ × ℕ × ℕ) → List (ℕ × ℕ × ℕ) → List (ℕ × ℕ × ℕ)
  | 0, _, acc => acc
  | _ + 1, [], acc => acc
  | fuel + 1, (alo, ahi, blo, bhi) :: queue, acc =>
    let m := find_longest_match a b junk alo ahi blo bhi
    if m.2.2 ≠ 0 then
      let queue1 := if alo < m.1 ∧ blo < m.2.1 then
          (alo, m.1, blo, m.2.1) :: queue
        else queue
      let queue2 := if m.1 + m.2.2 < ahi ∧ m.2.1 + m.2.2 < bhi then
          (m.1 + m.2.2, ahi, m.2.1 + m.2.2, bhi) :: queue1
        else queue1
      gmbAux a b junk fuel queue2 (acc ++ [m])
    else gmbAux a b junk fuel queue acc

/-- The adjacent-block collapse at the end of `get_matching_blocks`. -/
def collapseBlocks (la lb : ℕ) (blocks : List (ℕ × ℕ × ℕ)) :
    List (ℕ × ℕ × ℕ) :=
  let st := blocks.foldl
    (fun (st : (ℕ × ℕ × ℕ) × List (ℕ × ℕ × ℕ)) blk =>
      if st.1.1 + st.1.2.2 = blk.1 ∧ st.1.2.1 + st.1.2.2 = blk.2.1 then
        ((st.1.1, st.1.2.1, st.1.2.2 + blk.2.2), st.2)
      else
        (blk, st.2 ++ (if st.1.2.2 ≠ 0 then [st.1] else [])))
    ((0, 0, 0), [])
  (st.2 ++ (if st.1.2.2 ≠ 0 then [st.1] else [])) ++ [(la, lb, 0)]

/-- `SequenceMatcher.get_matching_blocks` (with `isjunk = None`). -/
def get_matching_blocks {α : Type} [DecidableEq α] (a b : List α) :
    List (ℕ × ℕ × ℕ) :=
  collapseBlocks a.length b.length
    (sortBlocks (gmbAux a b (fun _ => false) (2 * a.length + 2)
      [(0, a.length, 0, b.length)] []))

/-- Opcode tags of `get_opcodes`. -/
inductive OpTag where
  | replace
  | delete
  | insert
  | equal
  deriving DecidableEq, Repr

/-- `SequenceMatcher.get_opcodes`. -/
def get_opcodes {α : Type} [DecidableEq α] (a b : List α) :
    List (OpTag × ℕ × ℕ × ℕ × ℕ) :=
  (get_matching_blocks a b).foldl
    (fun (st : ℕ × ℕ × List (OpTag × ℕ × ℕ × ℕ × ℕ)) blk =>
      let i := st.1
      let j := st.2.1
      let ai := blk.1
      let bj := blk.2.1
      let size := blk.2.2
      let acc := st.2.2 ++
        (if i < ai ∧ j < bj then [(OpTag.replace, i, ai, j, bj)]
         else if i < ai then [(OpTag.delete, i, ai, j, bj)]
         else if j < bj then [(OpTag.insert, i, ai, j, bj)]
         else [])
      let acc := acc ++
        (if size ≠ 0 then [(OpTag.equal, ai, ai + size, bj, bj + size)]
         else [])
      (ai + size, bj + size, acc))
    (0, 0, []) |>.2.2

/-- `SequenceMatcher.ratio`: `2·matches / (len(a)+len(b))`, and `1.0` for
two empty sequences (`_calculate_ratio`). -/
def smRatio {α : Type} [DecidableEq α] (a b : List α) : ℚ :=
  let ms := (get_matching_blocks a b).foldl (fun acc t => acc + t.2.2) (0 : ℕ)
  if a.length + b.length ≠ 0 then
    2 * (ms : ℚ) / ((a.length : ℚ) + (b.length : ℚ))
  else 1

/-! ## Code diff generator (`src/ai/utils/code_diff.py`) -/

/-- `ChangeType` enum. -/
inductive ChangeType where
  | ADDED
  | REMOVED
  | MODIFIED
  | UNCHANGED
  deriving DecidableEq, Repr

/-- `ImprovementCategory` enum. -/
inductive ImprovementCategory where
  | PERFORMANCE
  | SECURITY
  | READABILITY
  | ERROR_HANDLING
  | BEST_PRACTICES
  | STYLE
  | FUNCTIONALITY
  deriving DecidableEq, Repr

/-- `DiffLine` dataclass. -/
structure DiffLine where
  line_number_old : Option ℕ
  line_number_new : Option ℕ
  content_old : Option String
  content_new : Option String
  change_type : ChangeType
  deriving DecidableEq, Repr

/-- `DiffHunk` dataclass. -/
structure DiffHunk where
  start_line_old : ℕ
  start_line_new : ℕ
  lines : List DiffLine
  context_before : List String := []
  context_after : List String := []
  deriving DecidableEq, Repr

/-- `CodeImprovement` dataclass. -/
structure CodeImprovement where
  category : ImprovementCategory
  description : String
  line_range : ℕ × ℕ
  original_code : String
  improved_code : String
  deriving DecidableEq, Repr

/-- `DiffResult` dataclass.  The two rendered-text fields of the source
(`unified_diff`, `html_diff`) are presentation strings no claim touches and
are not modelled. -/
structure DiffResult where
  original_lines : ℕ
  improved_lines : ℕ
  lines_added : ℕ
  lines_removed : ℕ
  lines_modified : ℕ
  hunks : List DiffHunk
  improvements : List CodeImprovement
  similarity_ratio : ℚ
  deriving Repr

/-- Python `str.rstrip()`. -/
def pyRstrip (s : String) : String :=
  String.mk ((s.data.reverse.dropWhile Char.isWhitespace).reverse)

/-- Python line-break characters (the `str.splitlines` boundary set,
`\r\n` handled as one boundary). -/
def isLineBreakChar (c : Char) : Bool :=
  c == '\n' || c == '\r' || c.toNat == 0x0b || c.toNat == 0x0c ||
  c.toNat == 0x1c || c.toNat == 0x1d || c.toNat == 0x1e ||
  c.toNat == 0x85 || c.toNat == 0x2028 || c.toNat == 0x2029

/-- Python `s.splitlines(keepends=True)`. -/
def splitKeepAux : List Char → List Char → List String
  | acc, [] => if acc.isEmpty then [] else [String.mk acc.reverse]
  | acc, '\r' :: '\n' :: t =>
    String.mk (('\n' :: '\r' :: acc).reverse) :: splitKeepAux [] t
  | acc, c :: t =>
    if isLineBreakChar c then String.mk ((c :: acc).reverse) :: splitKeepAux [] t
    else splitKeepAux (c :: acc) t

/-- Python `s.splitlines(keepends=True)` on a string. -/
def pySplitKeepends (s : String) : List String := splitKeepAux [] s.data

/-- `CodeDiffGenerator._calculate_stats`: `(added, removed, modified)`. -/
def calculate_stats (original improved : List String) : ℕ × ℕ × ℕ :=
  (get_opcodes original improved).foldl
    (fun (st : ℕ × ℕ × ℕ) op =>
      match op.1 with
      | OpTag.insert => (st.1 + (op.2.2.2.2 - op.2.2.2.1), st.2.1, st.2.2)
      | OpTag.delete => (st.1, st.2.1 + (op.2.2.1 - op.2.1), st.2.2)
      | OpTag.replace =>
        (st.1, st.2.1,
         st.2.2 + max (op.2.2.1 - op.2.1) (op.2.2.2.2 - op.2.2.2.1))
      | OpTag.equal => st)
    (0, 0, 0)

/-- The `DiffLine` list of one non-`equal` opcode in
`CodeDiffGenerator._generate_hunks`. -/
def hunkLines (original improved : List String) (op : OpTag × ℕ × ℕ × ℕ × ℕ) :
    List DiffLine :=
  let i1 := op.2.1
  let i2 := op.2.2.1
  let j1 := op.2.2.2.1
  let j2 := op.2.2.2.2
  match op.1 with
  | OpTag.replace =>
    (List.range (max (i2 - i1) (j2 - j1))).map (fun k =>
      let old_idx := if k < i2 - i1 then some (i1 + k) else none
      let new_idx := if k < j2 - j1 then some (j1 + k) else none
      { line_number_old := old_idx.map (· + 1)
        line_number_new := new_idx.map (· + 1)
        content_old := old_idx.map (fun x => pyRstrip (original.getD x ""))
        content_new := new_idx.map (fun x => pyRstrip (improved.getD x ""))
        change_type := ChangeType.MODIFIED })
  | OpTag.delete =>
    (List.range' i1 (i2 - i1)).map (fun k =>
      { line_number_old := some (k + 1)
        line_number_new := none
        content_old := some (pyRstrip (original.getD k ""))
        content_new := none
        change_type := ChangeType.REMOVED })
  | OpTag.insert =>
    (List.range' j1 (j2 - j1)).map (fun k =>
      { line_number_old := none
        line_number_new := some (k + 1)
        content_old := none
        content_new := some (pyRstrip (improved.getD k ""))
        change_type := ChangeType.ADDED })
  | OpTag.equal => []

/-- `CodeDiffGenerator._generate_hunks` (`context_lines = 3`, the
constructor default). -/
def generate_hunks (original improved : List String) : List DiffHunk :=
  (get_opcodes original improved).foldl
    (fun (hunks : List DiffHunk) op =>
      if op.1 = OpTag.equal then hunks
      else
        let i1 := op.2.1
        let i2 := op.2.2.1
        let j1 := op.2.2.2.1
        let start_ctx := i1 - 3
        let end_ctx := min original.length (i2 + 3)
        hunks ++
          [{ start_line_old := i1 + 1
             start_line_new := j1 + 1
             lines := hunkLines original improved op
             context_before :=
               ((original.drop start_ctx).take (i1 - start_ctx)).map pyRstrip
             context_after :=
               ((original.drop i2).take (end_ctx - i2)).map pyRstrip }])
    []

/-- `CodeDiffGenerator.IMPROVEMENT_PATTERNS`, in dict order. -/
def IMPROVEMENT_PATTERNS :
    List (ImprovementCategory × List (Regex × String)) :=
  [(ImprovementCategory.ERROR_HANDLING,
    [(rseq [rstrCI "try", rwss, rchr lbraceChar], "Added try-catch error handling"),
     (rseq [rchr '$', rstrCI "ErrorActionPreference", rwss, rchr '='],
        "Set error action preference"),
     (rseq [rstrCI "catch", rwss, rchr lbraceChar], "Added exception handler"),
     (rseq [rstrCI "-ErrorAction", rwsp, rstrCI "Stop"],
        "Configured terminating errors")]),
   (ImprovementCategory.SECURITY,
    [(rstrCI "[SecureString]", "Using secure string for sensitive data"),
     (rstrCI "Get-Credential", "Using credential object"),
     (rseq [rstrCI "-Credential", rwsp, rchr '$'], "Parameterized credentials"),
     (rstrCI "ConvertTo-SecureString", "Converting to secure string")]),
   (ImprovementCategory.PERFORMANCE,
    [(rseq [rchr '.', rstrCI "ForEach", rchr '(', rchr lbraceChar],
        "Using ForEach method for performance"),
     (rstrCI "[System.Collections.Generic.List", "Using generic list"),
     (rstrCI "-AsHashTable", "Converting to hashtable for fast lookups"),
     (rseq [rchr '$', rstrCI "null", rwss, rchr '='],
        "Suppressing output for performance")]),
   (ImprovementCategory.BEST_PRACTICES,
    [(rstrCI "[CmdletBinding()]", "Added CmdletBinding attribute"),
     (rstrCI "[Parameter(", "Using parameter attributes"),
     (rstrCI "#Requires", "Added module requirements"),
     (rstrCI ".SYNOPSIS", "Added help documentation"),
     (rstrCI "Set-StrictMode", "Enabled strict mode")]),
   (ImprovementCategory.READABILITY,
    [(rstrCI "Write-Verbose", "Added verbose output"),
     (rseq [rchr '#', rwss, rplus rwd], "Added comments"),
     (rseq [rchr '$', rstrCI "PSCmdlet.WriteProgress"],
        "Added progress reporting"),
     (rseq [rchr '@', rchr lbraceChar], "Using splatting for readability")])]

/-- `re.finditer` span scanner: `(start, end)` of each non-overlapping
match in scan order (a zero-width match advances by one). -/
def finditAux (r : Regex) : ℕ → ℕ → List Char → List (ℕ × ℕ)
  | 0, _, _ => []
  | f + 1, p, t =>
    match reMatchHere r t with
    | some rest =>
      let e := p + (t.length - rest.length)
      if t.length - rest.length ≠ 0 then
        (p, e) :: finditAux r f e (t.drop (t.length - rest.length))
      else
        (p, e) ::
          (match t with
           | [] => []
           | _ :: t2 => finditAux r f (p + 1) t2)
    | none =>
      match t with
      | [] => []
      | _ :: t2 => finditAux r f (p + 1) t2

/-- `re.finditer` spans over a string. -/
def reFinditer (r : Regex) (s : String) : List (ℕ × ℕ) :=
  finditAux r (s.data.length + 1) 0 s.data

/-- The `CodeImprovement` built for one `finditer` match span. -/
def improvementOfSpan (improved : String) (cat : ImprovementCategory)
    (description : String) (span : ℕ × ℕ) : CodeImprovement :=
  let line_start := ((improved.data.take span.1).filter (fun c => c == '\n')).length + 1
  let line_end := ((improved.data.take span.2).filter (fun c => c == '\n')).length + 1
  let lines := pySplitNl improved
  let start_idx := line_start - 2
  let end_idx := min lines.length (line_end + 1)
  { category := cat
    description := description
    line_range := (line_start, line_end)
    original_code := ""
    improved_code := pyJoinNl ((lines.drop start_idx).take (end_idx - start_idx)) }

/-- `CodeDiffGenerator._detect_improvements`: a pattern contributes one
entry per match in `improved`, and only when it does not match in
`original`. -/
def detect_improvements (original improved : String) : List CodeImprovement :=
  IMPROVEMENT_PATTERNS.foldl
    (fun acc catPats =>
      catPats.2.foldl
        (fun acc pd =>
          let in_original := reSearch pd.1 original
          let matches_in_improved := reFinditer pd.1 improved
          if matches_in_improved ≠ [] ∧ in_original = false then
            acc ++ matches_in_improved.map
              (improvementOfSpan improved catPats.1 pd.2)
          else acc) acc)
    []

/-- `CodeDiffGenerator.generate_diff` (constructor defaults:
`context_lines = 3`, `detect_improvements = True`), minus the two rendered
text fields. -/
def generate_diff (original improved : String) : DiffResult :=
  let original_lines := pySplitKeepends original
  let improved_lines := pySplitKeepends improved
  let stats := calculate_stats original_lines improved_lines
  { original_lines := original_lines.length
    improved_lines := improved_lines.length
    lines_added := stats.1
    lines_removed := stats.2.1
    lines_modified := stats.2.2
    hunks := generate_hunks original_lines improved_lines
    improvements := detect_improvements original improved
    similarity_ratio := smRatio original.data improved.data }

/-! ### `generate_diff(A, A)` (claim C6)

The interesting step is that `find_longest_match` on two identical
sequences returns the full diagonal block even when autojunk has removed
popular elements from `b2j`: every update of `best` inside the dynamic
program happens on the diagonal (an off-diagonal chain is never longer than
the diagonal chain already seen), and the two non-junk extension loops then
stretch a diagonal best to the whole sequence. -/

/-- The value `j2len[j]` holds after the dynamic program has processed `r`
rows of `find_longest_match a b 0 (length a) 0 (length b)` with `b = a`:
the length of the `b2j`-chain ending at row `r-1`, column `j`. -/
def chainLen {α : Type} [DecidableEq α] (a : List α) : ℕ → ℕ → ℕ
  | 0, _ => 0
  | r + 1, j =>
    match a.get? r with
    | none => 0
    | some x =>
      if j ∈ b2j a x then (if j = 0 then 0 else chainLen a r (j - 1)) + 1
      else 0

theorem chainLen_succ_some {α : Type} [DecidableEq α] (a : List α) (r j : ℕ)
    (x : α) (hx : a.get? r = some x) :
    chainLen a (r + 1) j =
      if j ∈ b2j a x then (if j = 0 then 0 else chainLen a r (j - 1)) + 1
      else 0 := by
  simp only [chainLen, hx]

theorem chainLen_succ_none {α : Type} [DecidableEq α] (a : List α) (r j : ℕ)
    (hx : a.get? r = none) : chainLen a (r + 1) j = 0 := by
  simp only [chainLen, hx]

theorem mem_occIdx {α : Type} [DecidableEq α] (b : List α) (x : α) (j : ℕ) :
    j ∈ occIdx b x ↔ b.get? j = some x := by
  simp only [occIdx, List.mem_filter, List.mem_range, decide_eq_true_eq]
  constructor
  · rintro ⟨-, h⟩
    exact h
  · intro h
    refine ⟨?_, h⟩
    by_contra hlt
    rw [List.get?_eq_none.mpr (le_of_not_lt hlt)] at h
    exact Option.noConfusion h

theorem mem_b2j {α : Type} [DecidableEq α] (b : List α) (x : α) (j : ℕ) :
    j ∈ b2j b x ↔ isPopular b x = false ∧ b.get? j = some x := by
  unfold b2j
  split_ifs with h
  · simp [h]
  · simp [mem_occIdx, Bool.eq_false_iff.mpr h]

theorem b2j_sorted {α : Type} [DecidableEq α] (b : List α) (x : α) :
    List.Sorted (· < ·) (b2j b x) := by
  unfold b2j
  split_ifs with h
  · exact List.sorted_nil
  · exact (List.pairwise_lt_range b.length).filter _

theorem chainLen_le_row {α : Type} [DecidableEq α] (a : List α) :
    ∀ r j, chainLen a r j ≤ r := by
  intro r
  induction r with
  | zero => intro j; simp [chainLen]
  | succ r ih =>
    intro j
    cases hx : a.get? r with
    | none => rw [chainLen_succ_none a r j hx]; omega
    | some x =>
      rw [chainLen_succ_some a r j x hx]
      split_ifs with h1 h2
      · omega
      · have := ih (j - 1)
        omega
      · omega

/-- A positive chain value forces column membership in the row's `b2j`
list. -/
theorem chainLen_pos {α : Type} [DecidableEq α] (a : List α) (r j : ℕ)
    (h : 0 < chainLen a (r + 1) j) :
    ∃ x, a.get? r = some x ∧ j ∈ b2j a x := by
  revert h
  cases hx : a.get? r with
  | none => rw [chainLen_succ_none a r j hx]; omega
  | some x =>
    rw [chainLen_succ_some a r j x hx]
    split_ifs with h1 h2
    · intro _
      exact ⟨x, rfl, h1⟩
    · intro _
      exact ⟨x, rfl, h1⟩
    · intro h
      exact absurd h (by omega)

/-- Chains at a column left of the row index are dominated by that column's
diagonal chain. -/
theorem chainLen_diag_row {α : Type} [DecidableEq α] (a : List α) :
    ∀ j i, j ≤ i → chainLen a (i + 1) j ≤ chainLen a (j + 1) j := by
  intro j
  induction j with
  | zero =>
    intro i _
    by_cases hpos : 0 < chainLen a (i + 1) 0
    · obtain ⟨x, hx, hmem⟩ := chainLen_pos a i 0 hpos
      have hget0 : a.get? 0 = some x := ((mem_b2j a x 0).mp hmem).2
      have hv1 : chainLen a (i + 1) 0 = 1 := by
        rw [chainLen_succ_some a i 0 x hx, if_pos hmem]
        simp
      have hv2 : chainLen a (0 + 1) 0 = 1 := by
        rw [chainLen_succ_some a 0 0 x hget0, if_pos]
        · simp
        · exact (mem_b2j a x 0).mpr ⟨((mem_b2j a x 0).mp hmem).1, hget0⟩
      omega
    · omega
  | succ j ih =>
    intro i hji
    by_cases hpos : 0 < chainLen a (i + 1) (j + 1)
    · obtain ⟨x, hx, hmem⟩ := chainLen_pos a i (j + 1) hpos
      have hgetj : a.get? (j + 1) = some x := ((mem_b2j a x (j + 1)).mp hmem).2
      have hval : chainLen a (i + 1) (j + 1) = chainLen a i (j + 1 - 1) + 1 := by
        rw [chainLen_succ_some a i (j + 1) x hx, if_pos hmem, if_neg (by omega)]
      have hvalj : chainLen a (j + 1 + 1) (j + 1) =
          chainLen a (j + 1) (j + 1 - 1) + 1 := by
        rw [chainLen_succ_some a (j + 1) (j + 1) x hgetj, if_pos hmem,
          if_neg (by omega)]
      have hstep : chainLen a i j ≤ chainLen a (j + 1) j := by
        have hi1 : i - 1 + 1 = i := by omega
        have := ih (i - 1) (by omega)
        rwa [hi1] at this
      simp only [Nat.add_sub_cancel] at hval hvalj
      omega
    · omega

/-- Chains at a column right of the row index are dominated by the row's
diagonal chain. -/
theorem chainLen_diag_col {α : Type} [DecidableEq α] (a : List α) :
    ∀ i j, i ≤ j → chainLen a (i + 1) j ≤ chainLen a (i + 1) i := by
  intro i
  induction i with
  | zero =>
    intro j _
    by_cases hpos : 0 < chainLen a (0 + 1) j
    · obtain ⟨x, hx, hmem⟩ := chainLen_pos a 0 j hpos
      have hv1 : chainLen a (0 + 1) j ≤ 1 := by
        rw [chainLen_succ_some a 0 j x hx, if_pos hmem]
        split_ifs with h0
        · omega
        · have : chainLen a 0 (j - 1) = 0 := by simp [chainLen]
          omega
      have hmem0 : (0 : ℕ) ∈ b2j a x :=
        (mem_b2j a x 0).mpr ⟨((mem_b2j a x j).mp hmem).1, hx⟩
      have hv2 : chainLen a (0 + 1) 0 = 1 := by
        rw [chainLen_succ_some a 0 0 x hx, if_pos hmem0]
        simp
      omega
    · omega
  | succ i ih =>
    intro j hij
    by_cases hpos : 0 < chainLen a (i + 1 + 1) j
    · obtain ⟨x, hx, hmem⟩ := chainLen_pos a (i + 1) j hpos
      have hval : chainLen a (i + 1 + 1) j = chainLen a (i + 1) (j - 1) + 1 := by
        rw [chainLen_succ_some a (i + 1) j x hx, if_pos hmem, if_neg (by omega)]
      have hmemd : (i + 1) ∈ b2j a x :=
        (mem_b2j a x (i + 1)).mpr ⟨((mem_b2j a x j).mp hmem).1, hx⟩
      have hvald : chainLen a (i + 1 + 1) (i + 1) =
          chainLen a (i + 1) i + 1 := by
        rw [chainLen_succ_some a (i + 1) (i + 1) x hx, if_pos hmemd,
          if_neg (by omega)]
        simp
      have hstep : chainLen a (i + 1) (j - 1) ≤ chainLen a (i + 1) i :=
        ih (j - 1) (by omega)
      omega
    · omega

/-- `n < a.length` whenever `a.get? n` hits. -/
theorem get?_some_lt {α : Type} (a : List α) (n : ℕ) (x : α)
    (h : a.get? n = some x) : n < a.length := by
  by_contra hn
  rw [List.get?_eq_none.mpr (le_of_not_lt hn)] at h
  exact Option.noConfusion h

/-- Invariant of the inner loop of one dynamic-program row (`b = a`,
`alo = blo = 0`, `ahi = bhi = length a`), over the processed prefix `done`
of the row's `b2j` list: `newj2len` holds the chain values of the processed
columns, and `best` is a diagonal block within bounds whose size dominates
every chain value seen so far. -/
def RowInvP {α : Type} [DecidableEq α] (a : List α) (r : ℕ) (done : List ℕ)
    (st : (ℕ → ℕ) × (ℕ × ℕ × ℕ)) : Prop :=
  (∀ j, st.1 j = if j ∈ done then chainLen a (r + 1) j else 0) ∧
  st.2.1 = st.2.2.1 ∧
  st.2.1 + st.2.2.2 ≤ a.length ∧
  (∀ r' j, r' ≤ r → chainLen a r' j ≤ st.2.2.2) ∧
  (∀ j ∈ done, chainLen a (r + 1) j ≤ st.2.2.2)

/-- One inner-loop step preserves the row invariant: the computed `k` is the
chain value of column `j`, and if it beats `bestsize` then `j` must equal
`r` (off-diagonal chains are dominated by an already-seen diagonal chain),
so the new best block is again diagonal. -/
theorem flmCell_step {α : Type} [DecidableEq α] (a : List α) (r : ℕ) (x : α)
    (hx : a.get? r = some x) (j2lenPrev : ℕ → ℕ)
    (hprev : ∀ j, j2lenPrev j = chainLen a r j)
    (done todo2 : List ℕ) (j : ℕ)
    (hsplit : b2j a x = done ++ j :: todo2)
    (st : (ℕ → ℕ) × (ℕ × ℕ × ℕ)) (hinv : RowInvP a r done st) :
    RowInvP a r (done ++ [j]) (flmCell j2lenPrev r st j) := by
  obtain ⟨h1, h2, h3, h4, h5⟩ := hinv
  have hmem : j ∈ b2j a x := by
    rw [hsplit]
    exact List.mem_append_right _ (List.mem_cons_self _ _)
  have hk : (if j = 0 then 0 else j2lenPrev (j - 1)) + 1 =
      chainLen a (r + 1) j := by
    rw [chainLen_succ_some a r j x hx, if_pos hmem]
    simp only [hprev]
  have hP1 : ∀ jj, (flmCell j2lenPrev r st j).1 jj =
      if jj ∈ done ++ [j] then chainLen a (r + 1) jj else 0 := by
    intro jj
    simp only [flmCell]
    by_cases hjj : jj = j
    · subst hjj
      rw [Function.update_same, hk, if_pos]
      exact List.mem_append_right _ (List.mem_cons_self _ _)
    · rw [Function.update_noteq hjj, h1 jj]
      have : (jj ∈ done ++ [j]) ↔ jj ∈ done := by
        simp [List.mem_append, hjj]
      by_cases hd : jj ∈ done
      · rw [if_pos hd, if_pos (this.mpr hd)]
      · rw [if_neg hd, if_neg (fun hmem2 => hd (this.mp hmem2))]
  by_cases hlt : st.2.2.2 < (if j = 0 then 0 else j2lenPrev (j - 1)) + 1
  · -- best is updated: first show the updated cell is on the diagonal
    have hkpos : 0 < chainLen a (r + 1) j := by omega
    have hjr : j = r := by
      rcases lt_trichotomy j r with hlt2 | heq | hgt
      · exfalso
        have hle := chainLen_diag_row a j r (le_of_lt hlt2)
        have hdom := h4 (j + 1) j (by omega)
        omega
      · exact heq
      · exfalso
        have hle := chainLen_diag_col a r j (le_of_lt hgt)
        have hrmem : r ∈ b2j a x :=
          (mem_b2j a x r).mpr ⟨((mem_b2j a x j).mp hmem).1, hx⟩
        have hrdone : r ∈ done := by
          have hin : r ∈ done ++ j :: todo2 := by
            rw [← hsplit]
            exact hrmem
          rcases List.mem_append.mp hin with hd | hd
          · exact hd
          · rcases List.mem_cons.mp hd with hd2 | hd2
            · omega
            · exfalso
              have hsorted := b2j_sorted a x
              rw [hsplit] at hsorted
              have hs2 := (List.pairwise_append.mp hsorted).2.1
              have := (List.pairwise_cons.mp hs2).1 r hd2
              omega
        have hdone := h5 r hrdone
        omega
    subst hjr
    have hkler : chainLen a (j + 1) j ≤ j + 1 := chainLen_le_row a (j + 1) j
    have hrlen : j < a.length := get?_some_lt a j x hx
    refine ⟨hP1, ?_, ?_, ?_, ?_⟩
    · simp only [flmCell, if_pos hlt]
    · simp only [flmCell, if_pos hlt]
      omega
    · intro r' jj hr'
      simp only [flmCell, if_pos hlt]
      have := h4 r' jj hr'
      omega
    · intro jj hjj
      simp only [flmCell, if_pos hlt]
      rcases List.mem_append.mp hjj with hd | hd
      · have := h5 jj hd
        omega
      · rcases List.mem_cons.mp hd with hd2 | hd2
        · subst hd2
          omega
        · simp at hd2
  · -- best unchanged
    refine ⟨hP1, ?_, ?_, ?_, ?_⟩
    · simp only [flmCell, if_neg hlt]
      exact h2
    · simp only [flmCell, if_neg hlt]
      exact h3
    · intro r' jj hr'
      simp only [flmCell, if_neg hlt]
      exact h4 r' jj hr'
    · intro jj hjj
      simp only [flmCell, if_neg hlt]
      rcases List.mem_append.mp hjj with hd | hd
      · exact h5 jj hd
      · rcases List.mem_cons.mp hd with hd2 | hd2
        · subst hd2
          omega
        · simp at hd2

/-- Folding the inner loop over the remaining row list preserves the row
invariant. -/
theorem flmRow_fold {α : Type} [DecidableEq α] (a : List α) (r : ℕ) (x : α)
    (hx : a.get? r = some x) (j2lenPrev : ℕ → ℕ)
    (hprev : ∀ j, j2lenPrev j = chainLen a r j) :
    ∀ (todo done : List ℕ), b2j a x = done ++ todo →
      ∀ st, RowInvP a r done st →
        RowInvP a r (done ++ todo) (todo.foldl (flmCell j2lenPrev r) st) := by
  intro todo
  induction todo with
  | nil =>
    intro done hsplit st hinv
    simpa using hinv
  | cons j todo2 ih =>
    intro done hsplit st hinv
    have hstep := flmCell_step a r x hx j2lenPrev hprev done todo2 j hsplit st hinv
    have hsplit2 : b2j a x = (done ++ [j]) ++ todo2 := by
      rw [hsplit, List.append_assoc]
      rfl
    have hres := ih (done ++ [j]) hsplit2 _ hstep
    rw [List.append_assoc] at hres
    simpa using hres

/-- `takeWhile` keeps a list all of whose elements satisfy the predicate. -/
theorem takeWhile_all {p : ℕ → Bool} :
    ∀ {l : List ℕ}, (∀ y ∈ l, p y = true) → l.takeWhile p = l := by
  intro l
  induction l with
  | nil => intro _; rfl
  | cons y t ih =>
    intro h
    simp [List.takeWhile_cons, h y (List.mem_cons_self _ _),
      ih (fun z hz => h z (List.mem_cons_of_mem _ hz))]

/-- On the full slice (`blo = 0`, `bhi = length`) of two identical
sequences, the row list is exactly the `b2j` entry of the row element. -/
theorem rowJs_self {α : Type} [DecidableEq α] (a : List α) (r : ℕ) (x : α)
    (hx : a.get? r = some x) :
    rowJs a a 0 a.length r = b2j a x := by
  simp only [rowJs, hx]
  have h1 : (b2j a x).takeWhile (fun j => decide (j < a.length)) = b2j a x := by
    refine takeWhile_all ?_
    intro y hy
    have := ((mem_b2j a x y).mp hy).2
    simp [get?_some_lt a y x this]
  rw [h1]
  rw [List.filter_eq_self.mpr]
  intro y _
  simp

/-- Invariant of the outer dynamic-program loop after `m` rows. -/
def OuterInvP {α : Type} [DecidableEq α] (a : List α) (m : ℕ)
    (st : (ℕ → ℕ) × (ℕ × ℕ × ℕ)) : Prop :=
  (∀ j, st.1 j = chainLen a m j) ∧
  st.2.1 = st.2.2.1 ∧
  st.2.1 + st.2.2.2 ≤ a.length ∧
  (∀ r' j, r' ≤ m → chainLen a r' j ≤ st.2.2.2)

/-- One full row of the dynamic program preserves the outer invariant. -/
theorem flmRow_outer {α : Type} [DecidableEq α] (a : List α) (r : ℕ)
    (hr : r < a.length) (st : (ℕ → ℕ) × (ℕ × ℕ × ℕ))
    (h : OuterInvP a r st) :
    OuterInvP a (r + 1) (flmRow a a 0 a.length st r) := by
  obtain ⟨h1, h2, h3, h4⟩ := h
  obtain ⟨x, hx⟩ : ∃ x, a.get? r = some x := by
    cases hget : a.get? r with
    | none =>
      rw [List.get?_eq_none] at hget
      omega
    | some y => exact ⟨y, rfl⟩
  have hres := flmRow_fold a r x hx st.1 h1 (b2j a x) [] (by simp)
    (fun _ => 0, st.2)
    ⟨fun j => by simp, h2, h3, h4, fun j hj => by simp at hj⟩
  simp only [List.nil_append] at hres
  obtain ⟨p1, p2, p3, p4, p5⟩ := hres
  have hrow : flmRow a a 0 a.length st r =
      (b2j a x).foldl (flmCell st.1 r) (fun _ => 0, st.2) := by
    simp only [flmRow, rowJs_self a r x hx]
  rw [hrow]
  refine ⟨?_, p2, p3, ?_⟩
  · intro j
    rw [p1 j]
    by_cases hmem : j ∈ b2j a x
    · rw [if_pos hmem]
    · rw [if_neg hmem, chainLen_succ_some a r j x hx, if_neg hmem]
  · intro r' j hr'
    rcases Nat.eq_or_lt_of_le hr' with heq | hlt
    · subst heq
      by_cases hmem : j ∈ b2j a x
      · exact p5 j hmem
      · rw [chainLen_succ_some a r j x hx, if_neg hmem]
        omega
    · exact p4 r' j (by omega)

/-- The full dynamic program on identical sequences satisfies the outer
invariant at every prefix of rows. -/
theorem flmDP_rows_self {α : Type} [DecidableEq α] (a : List α) :
    ∀ m, m ≤ a.length →
      OuterInvP a m ((List.range m).foldl (flmRow a a 0 a.length)
        (fun _ => 0, (0, 0, 0))) := by
  intro m
  induction m with
  | zero =>
    intro _
    refine ⟨fun j => by simp [chainLen], rfl, by simp, ?_⟩
    intro r' j hr'
    interval_cases r'
    simp [chainLen]
  | succ m ih =>
    intro hm
    rw [List.range_succ, List.foldl_append]
    exact flmRow_outer a m (by omega) _ (ih (by omega))

/-- The dynamic program of `find_longest_match a a … 0 n 0 n` ends with a
diagonal best block within bounds dominating every chain value. -/
theorem flmDP_self {α : Type} [DecidableEq α] (a : List α) :
    OuterInvP a a.length (flmDP a a 0 a.length 0 a.length) := by
  have h := flmDP_rows_self a a.length (le_refl _)
  simp only [flmDP, Nat.sub_zero]
  rw [← List.range_eq_range']
  exact h

/-- `Option.any` of the constant-false predicate. -/
theorem option_any_false {α : Type} (o : Option α) :
    o.any (fun _ => false) = false := by
  cases o <;> rfl

/-- The head extension loop turns a diagonal best `(d, d, s)` into
`(0, 0, s + d)` on identical sequences with no junk. -/
theorem extendHead_self {α : Type} [DecidableEq α] (a : List α) :
    ∀ (fuel d s : ℕ), d ≤ fuel →
      extendHead a a (fun _ => false) 0 0 fuel (d, d, s) = (0, 0, s + d) := by
  intro fuel
  induction fuel with
  | zero =>
    intro d s hd
    have : d = 0 := by omega
    subst this
    rfl
  | succ f ih =>
    intro d s hd
    cases d with
    | zero =>
      simp [extendHead]
    | succ d2 =>
      simp only [extendHead]
      rw [if_pos]
      · simp only [Nat.add_sub_cancel]
        rw [ih d2 (s + 1) (by omega)]
        have harith : s + 1 + d2 = s + (d2 + 1) := by omega
        rw [harith]
      · refine ⟨by omega, by omega, option_any_false _, by trivial⟩

/-- The tail extension loop stretches `(0, 0, m)` to `(0, 0, n)` on
identical sequences with no junk. -/
theorem extendTail_self {α : Type} [DecidableEq α] (a : List α) :
    ∀ (fuel m : ℕ), m ≤ a.length → a.length - m ≤ fuel →
      extendTail a a (fun _ => false) a.length a.length fuel (0, 0, m) =
        (0, 0, a.length) := by
  intro fuel
  induction fuel with
  | zero =>
    intro m hm hf
    have : m = a.length := by omega
    subst this
    rfl
  | succ f ih =>
    intro m hm hf
    by_cases hlt : m < a.length
    · simp only [extendTail]
      rw [if_pos]
      · exact ih (m + 1) (by omega) (by omega)
      · refine ⟨by omega, by omega, option_any_false _, by trivial⟩
    · have hmn : m = a.length := by omega
      subst hmn
      simp only [extendTail]
      rw [if_neg]
      rintro ⟨h0, -⟩
      exact absurd h0 (by omega)

/-- The junk extension loops never move when the junk predicate is
constantly false. -/
theorem extendHeadJunk_never {α : Type} [DecidableEq α] (a b : List α)
    (alo blo : ℕ) : ∀ fuel st,
      extendHeadJunk a b (fun _ => false) alo blo fuel st = st := by
  intro fuel
  induction fuel with
  | zero => intro st; rfl
  | succ f ih =>
    intro st
    obtain ⟨i, j, s⟩ := st
    simp only [extendHeadJunk]
    rw [if_neg]
    rintro ⟨-, -, hj, -⟩
    rw [option_any_false] at hj
    exact Bool.noConfusion hj

theorem extendTailJunk_never {α : Type} [DecidableEq α] (a b : List α)
    (ahi bhi : ℕ) : ∀ fuel st,
      extendTailJunk a b (fun _ => false) ahi bhi fuel st = st := by
  intro fuel
  induction fuel with
  | zero => intro st; rfl
  | succ f ih =>
    intro st
    obtain ⟨i, j, s⟩ := st
    simp only [extendTailJunk]
    rw [if_neg]
    rintro ⟨-, -, hj, -⟩
    rw [option_any_false] at hj
    exact Bool.noConfusion hj

/-- `find_longest_match` on two identical sequences returns the full
diagonal block, autojunk notwithstanding. -/
theorem find_longest_match_self {α : Type} [DecidableEq α] (a : List α) :
    find_longest_match a a (fun _ => false) 0 a.length 0 a.length =
      (0, 0, a.length) := by
  obtain ⟨-, h2, h3, -⟩ := flmDP_self a
  simp only [find_longest_match]
  set st := (flmDP a a 0 a.length 0 a.length).2 with hst
  obtain ⟨d, dj, s⟩ := st
  simp only at h2 h3
  subst h2
  rw [extendHead_self a d d s (le_refl d)]
  rw [extendTail_self a a.length (s + d) (by omega) (by omega)]
  rw [extendHeadJunk_never, extendTailJunk_never]

/-- `gmbAux` on two identical sequences: the first pop finds the full block
and queues nothing. -/
theorem gmbAux_self {α : Type} [DecidableEq α] (a : List α) (fuel : ℕ) :
    gmbAux a a (fun _ => false) (fuel + 1 + 1) [(0, a.length, 0, a.length)] [] =
      if a.length ≠ 0 then [(0, 0, a.length)] else [] := by
  have hm := find_longest_match_self a
  by_cases hn : a.length = 0
  · rw [hn] at hm
    simp [gmbAux, hm, hn]
  · simp [gmbAux, hm, hn]

/-- `get_matching_blocks` on two identical sequences: the full block (when
nonempty) followed by the terminal sentinel. -/
theorem get_matching_blocks_self {α : Type} [DecidableEq α] (a : List α) :
    get_matching_blocks a a =
      (if a.length ≠ 0 then [(0, 0, a.length)] else []) ++
        [(a.length, a.length, 0)] := by
  unfold get_matching_blocks
  have h2 : 2 * a.length + 2 = 2 * a.length + 1 + 1 := by omega
  rw [h2, gmbAux_self]
  by_cases hn : a.length = 0
  · simp [hn, sortBlocks, collapseBlocks]
  · simp [hn, sortBlocks, insertBlock, collapseBlocks]

/-- `get_opcodes` on two identical sequences: a single `equal` opcode (or
nothing when both are empty). -/
theorem get_opcodes_self {α : Type} [DecidableEq α] (a : List α) :
    get_opcodes a a =
      if a.length ≠ 0 then [(OpTag.equal, 0, a.length, 0, a.length)] else [] := by
  unfold get_opcodes
  rw [get_matching_blocks_self]
  by_cases hn : a.length = 0
  · simp [hn]
  · simp [hn]

/-- `_calculate_stats` on two identical line lists is `(0, 0, 0)`. -/
theorem calculate_stats_self (l : List String) : calculate_stats l l = (0, 0, 0) := by
  unfold calculate_stats
  rw [get_opcodes_self]
  by_cases hn : l.length = 0
  · simp [hn]
  · simp [hn]

/-- `_generate_hunks` on two identical line lists is empty. -/
theorem generate_hunks_self (l : List String) : generate_hunks l l = [] := by
  unfold generate_hunks
  rw [get_opcodes_self]
  by_cases hn : l.length = 0
  · simp [hn]
  · simp [hn]

/-- `SequenceMatcher.ratio` of two identical sequences is `1`. -/
theorem smRatio_self {α : Type} [DecidableEq α] (l : List α) : smRatio l l = 1 := by
  by_cases hn : l.length = 0
  · simp [smRatio, get_matching_blocks_self, hn]
  · have hq : (l.length : ℚ) ≠ 0 := Nat.cast_ne_zero.mpr hn
    have hsum : l.length + l.length ≠ 0 := by omega
    simp only [smRatio, get_matching_blocks_self, hn, ne_eq, not_false_iff,
      if_true, ite_true, hsum, List.foldl_append, List.foldl_cons, List.foldl_nil]
    push_cast
    field_simp
    ring

/-- C6: for every string `A`, `generate_diff(A, A)` reports zero added,
removed and modified lines, an empty hunk list, and similarity ratio `1`. -/
theorem generate_diff_self (A : String) :
    (generate_diff A A).lines_added = 0 ∧
    (generate_diff A A).lines_removed = 0 ∧
    (generate_diff A A).lines_modified = 0 ∧
    (generate_diff A A).hunks = [] ∧
    (generate_diff A A).similarity_ratio = 1 := by
  have hs := calculate_stats_self (pySplitKeepends A)
  refine ⟨?_, ?_, ?_, ?_, ?_⟩ <;>
    simp [generate_diff, hs, generate_hunks_self, smRatio_self]
